import Mathlib

/-!
Verification of the AlephBFT leader-election core
(`consensus/src/extension/election.rs`).

The Rust source is shallowly embedded below.  Unit hashes are modelled as
natural numbers (they are opaque, totally ordered values in the source),
`NodeMap` as a fixed-length vector of optional hashes, the `Units` DAG index
as a list of units queried through the interface the source uses, and the
`HashMap` vote cache as an association list.  Rust panics (failed `assert!`
or `expect`) are modelled by a distinct `fatal` outcome, and the recursive
vote computation is driven by explicit fuel, with fuel exhaustion a further
distinct outcome (the Rust recursion would diverge there).
-/

/-- Modelled from the spec: a `NodeMap` is a per-committee-slot container,
one optional entry per committee member, so its `size` is the fixed
committee size `N` (the number of slots, present or not). -/
abbrev NodeMap := List (Option Nat)

/-- Modelled from the spec: `NodeMap::get(i)` returns the entry at slot `i`,
`None` when the slot is absent. -/
def NodeMap.get (m : NodeMap) (i : Nat) : Option Nat :=
  m.getD i none

/-- Modelled from the spec: `NodeMap::values()` iterates the present entries
in slot order. -/
def NodeMap.values (m : NodeMap) : List Nat :=
  m.filterMap id

/-- Modelled from the spec: `NodeMap::size()` is the slot count, i.e. the
fixed committee size `N`. -/
def NodeMap.size (m : NodeMap) : Nat :=
  m.length

/-- Modelled from the spec: an `ExtenderUnit` is a DAG vertex with a round,
a creator index, a hash, and a parent map with at most one parent hash per
committee slot. -/
structure ExtenderUnit where
  round : Nat
  creator : Nat
  hash : Nat
  parents : NodeMap
deriving DecidableEq

/-- Modelled from the spec: the DAG index collaborator.  It holds the units
known so far, in insertion order. -/
structure UnitsIndex where
  units : List ExtenderUnit
deriving DecidableEq

/-- Modelled from the spec: `Units::get(hash)` resolves a hash to its unit. -/
def UnitsIndex.get (us : UnitsIndex) (h : Nat) : Option ExtenderUnit :=
  us.units.find? (fun u => u.hash == h)

/-- Modelled from the spec: `Units::highest_round()` is the greatest round
for which a unit is known (0 for an empty index). -/
def UnitsIndex.highest_round (us : UnitsIndex) : Nat :=
  us.units.foldr (fun u acc => max u.round acc) 0

/-- Modelled from the spec: `Units::in_round(r)` lists the hashes of the
units known at exactly round `r`, a round with no units yet giving the
empty list. -/
def UnitsIndex.in_round (us : UnitsIndex) (r : Nat) : List Nat :=
  (us.units.filter (fun u => u.round == r)).map (fun u => u.hash)

/-- The deterministic common vote (coin schedule) of `election.rs`:
`false` at relative round 3, `true` up to relative round 4, then the parity
of the round. -/
def common_vote (relative_round : Nat) : Bool :=
  if relative_round = 3 then false
  else if relative_round ≤ 4 then true
  else decide (relative_round % 2 = 1)

/-- The short-circuiting outcome of the voting recursion (`VoteError` in the
source): the candidate is eliminated, or elected with the given head hash. -/
inductive VoteError where
  | EliminateCandidate : VoteError
  | ElectionDone : Nat → VoteError
deriving DecidableEq

/-- Outcome of an embedded computation: a value, a protocol short-circuit
(`VoteError`), a fatal abort (Rust `assert!`/`expect` panic), or fuel
exhaustion (the Rust recursion would not terminate). -/
inductive Res (α : Type) where
  | ok : α → Res α
  | err : VoteError → Res α
  | fatal : Res α
  | outOfFuel : Res α
deriving DecidableEq

/-- State of a `CandidateElection`: the candidate's round, creator and hash,
and the memoization cache mapping voter hash to its computed vote
(`HashMap` in the source, an association list here, newest entry first). -/
structure CandidateElection where
  round : Nat
  candidate_creator : Nat
  candidate_hash : Nat
  votes : List (Nat × Bool)
deriving DecidableEq

/-- Lookup in the vote cache (`HashMap::get`). -/
def findVote : List (Nat × Bool) → Nat → Option Bool
  | [], _ => none
  | (k, b) :: rest, h => if k = h then some b else findVote rest h

/-- `CandidateElection::new`: fresh election for a candidate, empty cache. -/
def CandidateElection.new (candidate : ExtenderUnit) : CandidateElection :=
  ⟨candidate.round, candidate.creator, candidate.hash, []⟩

/-- The body of `CandidateElection::parent_votes`: fold over the present
parents, obtaining each one's vote through `voteF` and tallying it.
`voteF` is the (fuelled) recursive `vote` function. -/
def parentVotesAux (voteF : CandidateElection → Nat → Res (Bool × CandidateElection)) :
    CandidateElection → List Nat → Nat → Nat → Res ((Nat × Nat) × CandidateElection)
  | ce, [], vf, va => .ok ((vf, va), ce)
  | ce, p :: ps, vf, va =>
    match voteF ce p with
    | .ok (true, ce') => parentVotesAux voteF ce' ps (vf + 1) va
    | .ok (false, ce') => parentVotesAux voteF ce' ps vf (va + 1)
    | .err e => .err e
    | .fatal => .fatal
    | .outOfFuel => .outOfFuel

/-- `CandidateElection::parent_votes`: tally the votes of the present
parents. -/
def CandidateElection.parent_votes
    (voteF : CandidateElection → Nat → Res (Bool × CandidateElection))
    (ce : CandidateElection) (parents : NodeMap) :
    Res ((Nat × Nat) × CandidateElection) :=
  parentVotesAux voteF ce (NodeMap.values parents) 0 0

/-- `CandidateElection::vote_from_parents`: tally the parents' votes, assert
the quorum precondition, terminate the election on a decisive supermajority
agreeing with the common vote (only from relative round 3 on), otherwise
compute the voter's own vote. -/
def CandidateElection.vote_from_parents
    (voteF : CandidateElection → Nat → Res (Bool × CandidateElection))
    (ce : CandidateElection) (parents : NodeMap) (relative_round : Nat) :
    Res (Bool × CandidateElection) :=
  let threshold := NodeMap.size parents * 2 / 3 + 1
  match CandidateElection.parent_votes voteF ce parents with
  | .ok ((votes_for, votes_against), ce') =>
    if votes_for + votes_against < threshold then .fatal
    else
      let cv := common_vote relative_round
      if 3 ≤ relative_round ∧ cv = true ∧ threshold ≤ votes_for then
        .err (.ElectionDone ce'.candidate_hash)
      else if 3 ≤ relative_round ∧ cv = false ∧ threshold ≤ votes_against then
        .err .EliminateCandidate
      else
        .ok ((if votes_for = 0 then false
              else if votes_against = 0 then true
              else cv), ce')
  | .err e => .err e
  | .fatal => .fatal
  | .outOfFuel => .outOfFuel

/-- `CandidateElection::compute_vote`: defensive `false` for voters not
later than the candidate, direct-descendant check at relative round 1,
derivation from the parents' votes otherwise. -/
def CandidateElection.compute_vote
    (voteF : CandidateElection → Nat → Res (Bool × CandidateElection))
    (ce : CandidateElection) (voter : ExtenderUnit) :
    Res (Bool × CandidateElection) :=
  if voter.round ≤ ce.round then .ok (false, ce)
  else
    let relative_round := voter.round - ce.round
    if relative_round = 1 then
      .ok (decide (NodeMap.get voter.parents ce.candidate_creator
                    = some ce.candidate_hash), ce)
    else
      CandidateElection.vote_from_parents voteF ce voter.parents relative_round

/-- One step of `CandidateElection::vote`: return the cached vote if
present, otherwise resolve the voter, compute its vote and cache it. -/
def voteStep (voteF : CandidateElection → Nat → Res (Bool × CandidateElection))
    (units : UnitsIndex) (ce : CandidateElection) (voter : Nat) :
    Res (Bool × CandidateElection) :=
  match findVote ce.votes voter with
  | some b => .ok (b, ce)
  | none =>
    match units.get voter with
    | none => .fatal
    | some vu =>
      match CandidateElection.compute_vote voteF ce vu with
      | .ok (b, ce') => .ok (b, { ce' with votes := (vu.hash, b) :: ce'.votes })
      | .err e => .err e
      | .fatal => .fatal
      | .outOfFuel => .outOfFuel

/-- `CandidateElection::vote`, driven by fuel: the Rust recursion terminates
on well-formed DAGs; fuel exhaustion models divergence. -/
def CandidateElection.vote (fuel : Nat) (units : UnitsIndex) :
    CandidateElection → Nat → Res (Bool × CandidateElection) :=
  match fuel with
  | 0 => fun _ _ => .outOfFuel
  | n + 1 => voteStep (CandidateElection.vote n units) units

/-- Vote all hashes of a list in order, short-circuiting like the `?` in the
source's loops. -/
def voteAll (fuel : Nat) (units : UnitsIndex) :
    CandidateElection → List Nat → Res CandidateElection
  | ce, [] => .ok ce
  | ce, h :: rest =>
    match CandidateElection.vote fuel units ce h with
    | .ok (_, ce') => voteAll fuel units ce' rest
    | .err e => .err e
    | .fatal => .fatal
    | .outOfFuel => .outOfFuel

/-- `CandidateElection::compute_votes`: vote every unit the index knows, in
increasing round order from the candidate's round + 1 up to the index's
highest round. -/
def CandidateElection.compute_votes (fuel : Nat) (ce : CandidateElection)
    (units : UnitsIndex) : Res CandidateElection :=
  voteAll fuel units ce
    ((List.range' (ce.round + 1) (units.highest_round - ce.round)).flatMap
      units.in_round)

/-- `CandidateElection::add_voter`: ensure one voter's vote is computed. -/
def CandidateElection.add_voter (fuel : Nat) (ce : CandidateElection)
    (voter : Nat) (units : UnitsIndex) : Res CandidateElection :=
  match CandidateElection.vote fuel units ce voter with
  | .ok (_, ce') => .ok ce'
  | .err e => .err e
  | .fatal => .fatal
  | .outOfFuel => .outOfFuel

/-- State of a `RoundElection`: the remaining candidate hashes in reverse
(descending) order, popped from the back, and the active candidate
election. -/
structure RoundElection where
  candidates : List Nat
  voting : CandidateElection
deriving DecidableEq

/-- Outcome of the round-election coordinator: the `NotReady` error of
`for_round`, the `Pending`/`Elected` election result, a fatal abort, or
fuel exhaustion. -/
inductive RRes where
  | notReady : RRes
  | pending : RoundElection → RRes
  | elected : Nat → RRes
  | fatal : RRes
  | outOfFuel : RRes
deriving DecidableEq

/-- One step of `RoundElection::handle_candidate_election_result`: keep
waiting on `Ok`, report the head on `ElectionDone`, and on
`EliminateCandidate` pop the next candidate (a fatal abort when none is
left), start a brand-new election for it and eagerly recompute all votes. -/
def handleStep (rec : Res CandidateElection → List Nat → RRes)
    (voteFuel : Nat) (units : UnitsIndex)
    (result : Res CandidateElection) (candidates : List Nat) : RRes :=
  match result with
  | .ok voting => .pending ⟨candidates, voting⟩
  | .err .EliminateCandidate =>
    match candidates.getLast? with
    | none => .fatal
    | some ch =>
      match units.get ch with
      | none => .fatal
      | some cu =>
        rec (CandidateElection.compute_votes voteFuel
              (CandidateElection.new cu) units) candidates.dropLast
  | .err (.ElectionDone head) => .elected head
  | .fatal => .fatal
  | .outOfFuel => .outOfFuel

/-- The elimination cascade of the coordinator, driven by fuel (each
elimination strictly shortens the candidate list, so `candidates.length + 1`
fuel always suffices). -/
def handleCER (fuel voteFuel : Nat) (units : UnitsIndex) :
    Res CandidateElection → List Nat → RRes :=
  match fuel with
  | 0 => fun _ _ => .outOfFuel
  | n + 1 => handleStep (handleCER n voteFuel units) voteFuel units

/-- `RoundElection::handle_candidate_election_result`, with the canonical
(always sufficient) cascade fuel. -/
def handle_candidate_election_result (voteFuel : Nat)
    (result : Res CandidateElection) (candidates : List Nat)
    (units : UnitsIndex) : RRes :=
  handleCER (candidates.length + 1) voteFuel units result candidates

/-- `RoundElection::compute_votes`. -/
def RoundElection.compute_votes (voteFuel : Nat) (e : RoundElection)
    (units : UnitsIndex) : RRes :=
  handle_candidate_election_result voteFuel
    (CandidateElection.compute_votes voteFuel e.voting units)
    e.candidates units

/-- `RoundElection::add_voter`. -/
def RoundElection.add_voter (voteFuel : Nat) (e : RoundElection)
    (voter : Nat) (units : UnitsIndex) : RRes :=
  handle_candidate_election_result voteFuel
    (CandidateElection.add_voter voteFuel e.voting voter units)
    e.candidates units

/-- `RoundElection::for_round`: `NotReady` without three rounds of
look-ahead; otherwise sort the round's unit hashes ascending, reverse them,
pop the smallest as first candidate (a fatal abort if there is none) and
eagerly compute all votes. -/
def RoundElection.for_round (voteFuel : Nat) (round : Nat) (units : UnitsIndex) :
    RRes :=
  if units.highest_round < round + 3 then .notReady
  else
    match (List.insertionSort (· ≤ ·) (units.in_round round)).reverse.getLast? with
    | none => .fatal
    | some ch =>
      match units.get ch with
      | none => .fatal
      | some cu =>
        RoundElection.compute_votes voteFuel
          ⟨(List.insertionSort (· ≤ ·) (units.in_round round)).reverse.dropLast,
            CandidateElection.new cu⟩ units

/-- One driver step: feed a voter (with the index as of that call) into a
pending election through `RoundElection::add_voter`; a non-pending outcome
is final and absorbs further steps. -/
def runStep (fuel : Nat) (r : RRes) (step : Nat × UnitsIndex) : RRes :=
  match r with
  | .pending e => RoundElection.add_voter fuel e step.1 step.2
  | other => other

/-- A run of the coordinator: starting from a `for_round` outcome, feed the
given voters in order through `RoundElection::add_voter`. -/
def runSeq (fuel : Nat) (r : RRes) (steps : List (Nat × UnitsIndex)) : RRes :=
  steps.foldl (runStep fuel) r

/-- One candidate-election state evolves into another: the candidate data is
unchanged and every cached vote is preserved with its value. -/
def Evolves (ce ce' : CandidateElection) : Prop :=
  ce'.round = ce.round ∧ ce'.candidate_creator = ce.candidate_creator ∧
    ce'.candidate_hash = ce.candidate_hash ∧
    ∀ h b, findVote ce.votes h = some b → findVote ce'.votes h = some b

/-- A sample candidate unit at round 0. -/
def wCand : ExtenderUnit := ⟨0, 0, 10, []⟩

/-- A sample round-1 voter citing the candidate in slot 0. -/
def wVoter1 : ExtenderUnit := ⟨1, 1, 20, [some 10]⟩

/-- A sample index holding the candidate and its direct voter. -/
def wUnits : UnitsIndex := ⟨[wCand, wVoter1]⟩

/-- The fresh election for the sample candidate. -/
def wCE : CandidateElection := CandidateElection.new wCand

/-- The sample election after the direct voter has been voted. -/
def wCE1 : CandidateElection := ⟨0, 0, 10, [(20, true)]⟩

/-- Sample round-0 units for the coordinator theorems. -/
def w7a : ExtenderUnit := ⟨0, 0, 5, []⟩

/-- Second sample round-0 unit, larger hash. -/
def w7b : ExtenderUnit := ⟨0, 1, 7, []⟩

/-- A round-3 unit providing enough look-ahead. -/
def w7c : ExtenderUnit := ⟨3, 0, 40, []⟩

/-- Sample index with two candidates and three rounds of look-ahead. -/
def w7Units : UnitsIndex := ⟨[w7a, w7b, w7c]⟩

/-- An index with look-ahead but no unit at round 0. -/
def wBadUnits : UnitsIndex := ⟨[⟨3, 0, 1, []⟩]⟩

/-- First added voter of the order-dependence counterexample, a round-6
unit whose parents vote against the second candidate. -/
def unitV2 : ExtenderUnit := ⟨6, 0, 71, [some 61, some 62]⟩

/-- Second added voter (in one order), a round-4 unit electing whichever
candidate is active. -/
def unitV1 : ExtenderUnit := ⟨4, 0, 53, [some 37, some 36]⟩

/-- Third added voter, a round-3 unit eliminating the first candidate. -/
def unitW : ExtenderUnit := ⟨3, 0, 43, [some 34, some 37]⟩

/-- The fixed initial index of the counterexample: three round-0
candidates and supporting units up to round 5, causally complete. -/
def units0 : UnitsIndex :=
  ⟨[⟨0, 0, 10, []⟩,
    ⟨0, 1, 11, []⟩,
    ⟨0, 2, 12, []⟩,
    ⟨1, 0, 21, [some 10]⟩,
    ⟨1, 0, 22, []⟩,
    ⟨1, 0, 23, [some 10, none, some 12]⟩,
    ⟨1, 0, 24, [none, none, some 12]⟩,
    ⟨1, 0, 25, [some 10, some 11]⟩,
    ⟨1, 0, 26, [some 10, some 11, some 12]⟩,
    ⟨1, 0, 27, [none, some 11, some 12]⟩,
    ⟨2, 0, 31, [some 21]⟩,
    ⟨2, 0, 32, [some 22]⟩,
    ⟨2, 0, 33, [some 23]⟩,
    ⟨2, 0, 34, [some 24]⟩,
    ⟨2, 0, 35, [some 25]⟩,
    ⟨2, 0, 36, [some 26]⟩,
    ⟨2, 0, 37, [some 27]⟩,
    ⟨3, 0, 41, [some 33, some 36]⟩,
    ⟨3, 0, 42, [some 31, some 34, some 35]⟩,
    ⟨4, 0, 51, [some 41, some 42]⟩,
    ⟨4, 0, 52, [some 42]⟩,
    ⟨5, 0, 61, [some 51, some 52]⟩,
    ⟨5, 0, 62, [some 52]⟩]⟩

/-- Index after adding the round-6 voter. -/
def idxB : UnitsIndex := ⟨units0.units ++ [unitV2]⟩

/-- Run-1 index after further adding the round-4 voter. -/
def idxR1a : UnitsIndex := ⟨units0.units ++ [unitV2, unitV1]⟩

/-- Run-1 final index. -/
def idxR1b : UnitsIndex := ⟨units0.units ++ [unitV2, unitV1, unitW]⟩

/-- Run-2 index after adding the round-3 voter instead. -/
def idxR2a : UnitsIndex := ⟨units0.units ++ [unitV2, unitW]⟩

/-- Run-2 final index. -/
def idxR2b : UnitsIndex := ⟨units0.units ++ [unitV2, unitW, unitV1]⟩

/-- C1: the coin schedule is true at 2, false at 3, true at 4, and the
parity of the round from 5 on. -/
theorem spec_c1 :
    common_vote 2 = true ∧ common_vote 3 = false ∧ common_vote 4 = true ∧
      ∀ k, 5 ≤ k → (common_vote k = true ↔ k % 2 = 1) := by
  refine ⟨rfl, rfl, rfl, ?_⟩
  intro k hk
  have h3 : k ≠ 3 := by omega
  have h4 : ¬k ≤ 4 := by omega
  simp [common_vote, h3, h4]

/-- Witness for C1 at the concrete relative round 7. -/
theorem spec_c1_witness :
    5 ≤ 7 ∧ (common_vote 7 = true ↔ 7 % 2 = 1) :=
  ⟨by decide, spec_c1.2.2.2 7 (by decide)⟩

theorem evolves_refl (ce : CandidateElection) : Evolves ce ce :=
  ⟨rfl, rfl, rfl, fun _ _ h => h⟩

theorem evolves_trans {a b c : CandidateElection} (h₁ : Evolves a b)
    (h₂ : Evolves b c) : Evolves a c :=
  ⟨h₂.1.trans h₁.1, h₂.2.1.trans h₁.2.1, h₂.2.2.1.trans h₁.2.2.1,
    fun h v hv => h₂.2.2.2 h v (h₁.2.2.2 h v hv)⟩

theorem get_hash {us : UnitsIndex} {v : Nat} {vu : ExtenderUnit}
    (h : us.get v = some vu) : vu.hash = v := by
  have := List.find?_some h
  simpa using this

/-- A cached voter is returned directly, leaving the state unchanged. -/
theorem vote_cache_hit (n : Nat) (units : UnitsIndex) (ce : CandidateElection)
    (v : Nat) (b : Bool) (h : findVote ce.votes v = some b) :
    CandidateElection.vote (n + 1) units ce v = .ok (b, ce) := by
  show voteStep (CandidateElection.vote n units) units ce v = _
  unfold voteStep
  rw [h]

theorem evolves_parentVotesAux
    {voteF : CandidateElection → Nat → Res (Bool × CandidateElection)}
    (hF : ∀ ce p b ce', voteF ce p = .ok (b, ce') → Evolves ce ce') :
    ∀ (ps : List Nat) (ce : CandidateElection) (vf va f a : Nat)
      (ce' : CandidateElection),
      parentVotesAux voteF ce ps vf va = .ok ((f, a), ce') → Evolves ce ce' := by
  intro ps
  induction ps with
  | nil =>
    intro ce vf va f a ce' h
    simp only [parentVotesAux, Res.ok.injEq, Prod.mk.injEq] at h
    exact h.2 ▸ evolves_refl ce
  | cons p ps ih =>
    intro ce vf va f a ce' h
    cases hv : voteF ce p with
    | ok r =>
      obtain ⟨b, ce₂⟩ := r
      simp only [parentVotesAux, hv] at h
      cases b with
      | true => exact evolves_trans (hF ce p true ce₂ hv) (ih ce₂ (vf + 1) va f a ce' h)
      | false => exact evolves_trans (hF ce p false ce₂ hv) (ih ce₂ vf (va + 1) f a ce' h)
    | err e => simp only [parentVotesAux, hv] at h; exact absurd h (by simp)
    | fatal => simp only [parentVotesAux, hv] at h; exact absurd h (by simp)
    | outOfFuel => simp only [parentVotesAux, hv] at h; exact absurd h (by simp)

theorem evolves_vote_from_parents
    {voteF : CandidateElection → Nat → Res (Bool × CandidateElection)}
    (hF : ∀ ce p b ce', voteF ce p = .ok (b, ce') → Evolves ce ce')
    (ce : CandidateElection) (parents : NodeMap) (k : Nat) (b : Bool)
    (ce' : CandidateElection)
    (h : CandidateElection.vote_from_parents voteF ce parents k = .ok (b, ce')) :
    Evolves ce ce' := by
  cases hpv : CandidateElection.parent_votes voteF ce parents with
  | ok r =>
    obtain ⟨⟨f, a⟩, ce₂⟩ := r
    have hev : Evolves ce ce₂ :=
      evolves_parentVotesAux hF (NodeMap.values parents) ce 0 0 f a ce₂ hpv
    simp only [CandidateElection.vote_from_parents, hpv] at h
    by_cases h1 : f + a < NodeMap.size parents * 2 / 3 + 1
    · rw [if_pos h1] at h; exact absurd h (by simp)
    · rw [if_neg h1] at h
      by_cases h2 : 3 ≤ k ∧ common_vote k = true ∧ NodeMap.size parents * 2 / 3 + 1 ≤ f
      · rw [if_pos h2] at h; exact absurd h (by simp)
      · rw [if_neg h2] at h
        by_cases h3 : 3 ≤ k ∧ common_vote k = false ∧ NodeMap.size parents * 2 / 3 + 1 ≤ a
        · rw [if_pos h3] at h; exact absurd h (by simp)
        · rw [if_neg h3] at h
          simp only [Res.ok.injEq, Prod.mk.injEq] at h
          exact h.2 ▸ hev
  | err e => simp only [CandidateElection.vote_from_parents, hpv] at h; exact absurd h (by simp)
  | fatal => simp only [CandidateElection.vote_from_parents, hpv] at h; exact absurd h (by simp)
  | outOfFuel => simp only [CandidateElection.vote_from_parents, hpv] at h; exact absurd h (by simp)

theorem evolves_compute_vote
    {voteF : CandidateElection → Nat → Res (Bool × CandidateElection)}
    (hF : ∀ ce p b ce', voteF ce p = .ok (b, ce') → Evolves ce ce')
    (ce : CandidateElection) (voter : ExtenderUnit) (b : Bool)
    (ce' : CandidateElection)
    (h : CandidateElection.compute_vote voteF ce voter = .ok (b, ce')) :
    Evolves ce ce' := by
  unfold CandidateElection.compute_vote at h
  by_cases h1 : voter.round ≤ ce.round
  · rw [if_pos h1] at h
    simp only [Res.ok.injEq, Prod.mk.injEq] at h
    exact h.2 ▸ evolves_refl ce
  · rw [if_neg h1] at h
    by_cases h2 : voter.round - ce.round = 1
    · simp only [h2, if_pos] at h
      simp only [Res.ok.injEq, Prod.mk.injEq] at h
      exact h.2 ▸ evolves_refl ce
    · rw [if_neg h2] at h
      exact evolves_vote_from_parents hF ce voter.parents _ b ce' h

/-- The recursive vote computation only ever evolves the memoization cache:
candidate data is untouched and cached votes keep their values. -/
theorem evolves_vote :
    ∀ (fuel : Nat) (units : UnitsIndex) (ce : CandidateElection) (v : Nat)
      (b : Bool) (ce' : CandidateElection),
      CandidateElection.vote fuel units ce v = .ok (b, ce') → Evolves ce ce' := by
  intro fuel
  induction fuel with
  | zero => intro units ce v b ce' h; exact absurd h (by simp [CandidateElection.vote])
  | succ n ih =>
    intro units ce v b ce' h
    cases hfv : findVote ce.votes v with
    | some b₀ =>
      simp only [CandidateElection.vote, voteStep, hfv, Res.ok.injEq, Prod.mk.injEq] at h
      exact h.2 ▸ evolves_refl ce
    | none =>
      cases hg : units.get v with
      | none =>
        simp only [CandidateElection.vote, voteStep, hfv, hg] at h
        exact absurd h (by simp)
      | some vu =>
        cases hcv : CandidateElection.compute_vote (CandidateElection.vote n units) ce vu with
        | ok r =>
          obtain ⟨b₂, ce₂⟩ := r
          simp only [CandidateElection.vote, voteStep, hfv, hg, hcv,
            Res.ok.injEq, Prod.mk.injEq] at h
          obtain ⟨hb, hce⟩ := h
          have hev : Evolves ce ce₂ :=
            evolves_compute_vote (fun a p c d hh => ih units a p c d hh) ce vu b₂ ce₂ hcv
          refine hce ▸ ⟨hev.1, hev.2.1, hev.2.2.1, ?_⟩
          intro h₀ b₀ hb₀
          have hne : h₀ ≠ v := fun hEq => by rw [hEq, hfv] at hb₀; exact Option.noConfusion hb₀
          have hvh : vu.hash ≠ h₀ := by rw [get_hash hg]; exact fun hEq => hne hEq.symm
          show findVote ((vu.hash, b₂) :: ce₂.votes) h₀ = some b₀
          unfold findVote
          rw [if_neg hvh]
          exact hev.2.2.2 h₀ b₀ hb₀
        | err e =>
          simp only [CandidateElection.vote, voteStep, hfv, hg, hcv] at h
          exact absurd h (by simp)
        | fatal =>
          simp only [CandidateElection.vote, voteStep, hfv, hg, hcv] at h
          exact absurd h (by simp)
        | outOfFuel =>
          simp only [CandidateElection.vote, voteStep, hfv, hg, hcv] at h
          exact absurd h (by simp)

/-- A successful vote leaves the voter cached with the returned value. -/
theorem vote_caches (fuel : Nat) (units : UnitsIndex) (ce : CandidateElection)
    (v : Nat) (b : Bool) (ce' : CandidateElection)
    (h : CandidateElection.vote fuel units ce v = .ok (b, ce')) :
    findVote ce'.votes v = some b := by
  cases fuel with
  | zero => exact absurd h (by simp [CandidateElection.vote])
  | succ n =>
    cases hfv : findVote ce.votes v with
    | some b₀ =>
      simp only [CandidateElection.vote, voteStep, hfv, Res.ok.injEq, Prod.mk.injEq] at h
      rw [← h.2, ← h.1]
      exact hfv
    | none =>
      cases hg : units.get v with
      | none =>
        simp only [CandidateElection.vote, voteStep, hfv, hg] at h
        exact absurd h (by simp)
      | some vu =>
        cases hcv : CandidateElection.compute_vote (CandidateElection.vote n units) ce vu with
        | ok r =>
          obtain ⟨b₂, ce₂⟩ := r
          simp only [CandidateElection.vote, voteStep, hfv, hg, hcv,
            Res.ok.injEq, Prod.mk.injEq] at h
          rw [← h.2, ← h.1]
          show findVote ((vu.hash, b₂) :: ce₂.votes) v = some b₂
          unfold findVote
          rw [if_pos (get_hash hg)]
        | err e =>
          simp only [CandidateElection.vote, voteStep, hfv, hg, hcv] at h
          exact absurd h (by simp)
        | fatal =>
          simp only [CandidateElection.vote, voteStep, hfv, hg, hcv] at h
          exact absurd h (by simp)
        | outOfFuel =>
          simp only [CandidateElection.vote, voteStep, hfv, hg, hcv] at h
          exact absurd h (by simp)

theorem evolves_voteAll (fuel : Nat) (units : UnitsIndex) :
    ∀ (hs : List Nat) (ce ce' : CandidateElection),
      voteAll fuel units ce hs = .ok ce' → Evolves ce ce' := by
  intro hs
  induction hs with
  | nil =>
    intro ce ce' h
    simp only [voteAll, Res.ok.injEq] at h
    exact h ▸ evolves_refl ce
  | cons x hs ih =>
    intro ce ce' h
    cases hv : CandidateElection.vote fuel units ce x with
    | ok r =>
      obtain ⟨b, ce₂⟩ := r
      simp only [voteAll, hv] at h
      exact evolves_trans (evolves_vote fuel units ce x b ce₂ hv) (ih ce₂ ce' h)
    | err e => simp only [voteAll, hv] at h; exact absurd h (by simp)
    | fatal => simp only [voteAll, hv] at h; exact absurd h (by simp)
    | outOfFuel => simp only [voteAll, hv] at h; exact absurd h (by simp)

theorem parentVotesAux_count
    {voteF : CandidateElection → Nat → Res (Bool × CandidateElection)} :
    ∀ (ps : List Nat) (ce : CandidateElection) (vf va f a : Nat)
      (ce' : CandidateElection),
      parentVotesAux voteF ce ps vf va = .ok ((f, a), ce') →
      f + a = vf + va + ps.length := by
  intro ps
  induction ps with
  | nil =>
    intro ce vf va f a ce' h
    simp only [parentVotesAux, Res.ok.injEq, Prod.mk.injEq] at h
    obtain ⟨⟨h1, h2⟩, _⟩ := h
    simp [← h1, ← h2]
  | cons p ps ih =>
    intro ce vf va f a ce' h
    cases hv : voteF ce p with
    | ok r =>
      obtain ⟨b, ce₂⟩ := r
      simp only [parentVotesAux, hv] at h
      cases b with
      | true => have := ih ce₂ (vf + 1) va f a ce' h; simp at this ⊢; omega
      | false => have := ih ce₂ vf (va + 1) f a ce' h; simp at this ⊢; omega
    | err e => simp only [parentVotesAux, hv] at h; exact absurd h (by simp)
    | fatal => simp only [parentVotesAux, hv] at h; exact absurd h (by simp)
    | outOfFuel => simp only [parentVotesAux, hv] at h; exact absurd h (by simp)

theorem handleCER_ne_notReady :
    ∀ (fuel vF : Nat) (units : UnitsIndex) (r : Res CandidateElection)
      (cands : List Nat), handleCER fuel vF units r cands ≠ .notReady := by
  intro fuel
  induction fuel with
  | zero => intro vF units r cands h; exact RRes.noConfusion h
  | succ n ih =>
    intro vF units r cands
    show handleStep (handleCER n vF units) vF units r cands ≠ .notReady
    unfold handleStep
    cases r with
    | ok voting =>
      dsimp only
      exact fun h => RRes.noConfusion h
    | err e =>
      cases e with
      | EliminateCandidate =>
        cases cands.getLast? with
        | none =>
          dsimp only
          exact fun h => RRes.noConfusion h
        | some ch =>
          dsimp only
          cases units.get ch with
          | none =>
            dsimp only
            exact fun h => RRes.noConfusion h
          | some cu =>
            dsimp only
            exact ih vF units _ _
      | ElectionDone hd =>
        dsimp only
        exact fun h => RRes.noConfusion h
    | fatal =>
      dsimp only
      exact fun h => RRes.noConfusion h
    | outOfFuel =>
      dsimp only
      exact fun h => RRes.noConfusion h

/-- C2: a voter no later than the candidate votes `false`; a voter exactly
one round past the candidate votes `true` exactly when its parent slot at
the candidate's creator holds the candidate's hash. -/
theorem spec_c2 (fuel : Nat) (units : UnitsIndex) (ce : CandidateElection)
    (voter : ExtenderUnit) :
    (voter.round ≤ ce.round →
      CandidateElection.compute_vote (CandidateElection.vote fuel units) ce voter
        = .ok (false, ce)) ∧
    (voter.round - ce.round = 1 →
      CandidateElection.compute_vote (CandidateElection.vote fuel units) ce voter
        = .ok (decide (NodeMap.get voter.parents ce.candidate_creator
                        = some ce.candidate_hash), ce)) := by
  constructor
  · intro h
    simp [CandidateElection.compute_vote, h]
  · intro h
    have h2 : ¬voter.round ≤ ce.round := by omega
    simp [CandidateElection.compute_vote, h2, h]

/-- Witness for C2 at a concrete direct voter. -/
theorem spec_c2_witness :
    wVoter1.round - wCE.round = 1 ∧
      CandidateElection.compute_vote (CandidateElection.vote 1 wUnits) wCE wVoter1
        = .ok (decide (NodeMap.get wVoter1.parents wCE.candidate_creator
                        = some wCE.candidate_hash), wCE) :=
  ⟨by decide, (spec_c2 1 wUnits wCE wVoter1).2 (by decide)⟩

/-- C3: from relative round 3 on, a for-supermajority with a true common
vote elects the candidate (reporting the candidate's hash), an
against-supermajority with a false common vote eliminates it, and in every
other case with the quorum assertion satisfied the computation just returns
the voter's own vote. -/
theorem spec_c3 (fuel : Nat) (units : UnitsIndex) (ce : CandidateElection)
    (parents : NodeMap) (k f a : Nat) (ce' : CandidateElection)
    (hpv : CandidateElection.parent_votes (CandidateElection.vote fuel units)
            ce parents = .ok ((f, a), ce'))
    (hk : 3 ≤ k) :
    ce'.candidate_hash = ce.candidate_hash ∧
    (common_vote k = true → NodeMap.size parents * 2 / 3 + 1 ≤ f →
      CandidateElection.vote_from_parents (CandidateElection.vote fuel units)
          ce parents k = .err (.ElectionDone ce.candidate_hash)) ∧
    (common_vote k = false → NodeMap.size parents * 2 / 3 + 1 ≤ a →
      CandidateElection.vote_from_parents (CandidateElection.vote fuel units)
          ce parents k = .err .EliminateCandidate) ∧
    (¬(common_vote k = true ∧ NodeMap.size parents * 2 / 3 + 1 ≤ f) →
      ¬(common_vote k = false ∧ NodeMap.size parents * 2 / 3 + 1 ≤ a) →
      NodeMap.size parents * 2 / 3 + 1 ≤ f + a →
      CandidateElection.vote_from_parents (CandidateElection.vote fuel units)
          ce parents k
        = .ok ((if f = 0 then false else if a = 0 then true else common_vote k),
            ce')) := by
  have hev : Evolves ce ce' :=
    evolves_parentVotesAux (fun x p c d hh => evolves_vote fuel units x p c d hh)
      (NodeMap.values parents) ce 0 0 f a ce' hpv
  refine ⟨hev.2.2.1, ?_, ?_, ?_⟩
  · intro hcv hth
    simp only [CandidateElection.vote_from_parents, hpv]
    rw [if_neg (by omega), if_pos ⟨hk, hcv, hth⟩, hev.2.2.1]
  · intro hcv hth
    simp only [CandidateElection.vote_from_parents, hpv]
    rw [if_neg (by omega), if_neg (by simp [hcv]), if_pos ⟨hk, hcv, hth⟩]
  · intro hn1 hn2 hge
    simp only [CandidateElection.vote_from_parents, hpv]
    rw [if_neg (by omega), if_neg (fun hc => hn1 ⟨hc.2.1, hc.2.2⟩),
      if_neg (fun hc => hn2 ⟨hc.2.1, hc.2.2⟩)]

/-- Witness for C3: one cached for-vote, relative round 4, threshold 1, so
the candidate is elected. -/
theorem spec_c3_witness :
    CandidateElection.parent_votes (CandidateElection.vote 1 wUnits) wCE1
        [some 20] = .ok ((1, 0), wCE1) ∧
      3 ≤ 4 ∧ common_vote 4 = true ∧ NodeMap.size [some 20] * 2 / 3 + 1 ≤ 1 ∧
      CandidateElection.vote_from_parents (CandidateElection.vote 1 wUnits)
          wCE1 [some 20] 4 = .err (.ElectionDone wCE1.candidate_hash) :=
  ⟨by decide, by decide, by decide, by decide,
    (spec_c3 1 wUnits wCE1 [some 20] 4 1 0 wCE1 (by decide) (by decide)).2.1
      (by decide) (by decide)⟩

/-- C4: when the computation does not terminate the election and the quorum
assertion holds, the voter's own vote is `false` on zero for-votes, `true`
on zero against-votes, and the common vote on a genuine split; in
particular unanimous parents fix the vote independently of the coin. -/
theorem spec_c4 (fuel : Nat) (units : UnitsIndex) (ce : CandidateElection)
    (parents : NodeMap) (k f a : Nat) (ce' : CandidateElection)
    (hpv : CandidateElection.parent_votes (CandidateElection.vote fuel units)
            ce parents = .ok ((f, a), ce'))
    (hge : NodeMap.size parents * 2 / 3 + 1 ≤ f + a)
    (hn1 : ¬(3 ≤ k ∧ common_vote k = true ∧
              NodeMap.size parents * 2 / 3 + 1 ≤ f))
    (hn2 : ¬(3 ≤ k ∧ common_vote k = false ∧
              NodeMap.size parents * 2 / 3 + 1 ≤ a)) :
    CandidateElection.vote_from_parents (CandidateElection.vote fuel units)
        ce parents k
      = .ok ((if f = 0 then false else if a = 0 then true else common_vote k),
          ce') := by
  simp only [CandidateElection.vote_from_parents, hpv]
  rw [if_neg (by omega), if_neg hn1, if_neg hn2]

/-- Witness for C4: one unanimous cached for-vote at relative round 2 gives
vote `true` without terminating. -/
theorem spec_c4_witness :
    CandidateElection.parent_votes (CandidateElection.vote 1 wUnits) wCE1
        [some 20] = .ok ((1, 0), wCE1) ∧
      CandidateElection.vote_from_parents (CandidateElection.vote 1 wUnits)
          wCE1 [some 20] 2
        = .ok ((if 1 = 0 then false else if 0 = 0 then true else common_vote 2),
            wCE1) :=
  ⟨by decide,
    spec_c4 1 wUnits wCE1 [some 20] 2 1 0 wCE1 (by decide) (by decide)
      (by decide) (by decide)⟩

/-- C5: the tallies count exactly the present parents, while the threshold
is computed from the full slot count (committee size): below the threshold
the quorum assertion aborts fatally, at or above it the computation never
aborts. -/
theorem spec_c5 (fuel : Nat) (units : UnitsIndex) (ce : CandidateElection)
    (parents : NodeMap) (k f a : Nat) (ce' : CandidateElection)
    (hpv : CandidateElection.parent_votes (CandidateElection.vote fuel units)
            ce parents = .ok ((f, a), ce')) :
    f + a = (NodeMap.values parents).length ∧
    (f + a < NodeMap.size parents * 2 / 3 + 1 →
      CandidateElection.vote_from_parents (CandidateElection.vote fuel units)
          ce parents k = .fatal) ∧
    (NodeMap.size parents * 2 / 3 + 1 ≤ f + a →
      CandidateElection.vote_from_parents (CandidateElection.vote fuel units)
          ce parents k ≠ .fatal) := by
  refine ⟨?_, ?_, ?_⟩
  · have := parentVotesAux_count (NodeMap.values parents) ce 0 0 f a ce' hpv
    omega
  · intro hlt
    simp only [CandidateElection.vote_from_parents, hpv]
    rw [if_pos hlt]
  · intro hge
    simp only [CandidateElection.vote_from_parents, hpv]
    rw [if_neg (by omega)]
    by_cases h2 : 3 ≤ k ∧ common_vote k = true ∧
        NodeMap.size parents * 2 / 3 + 1 ≤ f
    · rw [if_pos h2]; exact fun hEq => Res.noConfusion hEq
    · rw [if_neg h2]
      by_cases h3 : 3 ≤ k ∧ common_vote k = false ∧
          NodeMap.size parents * 2 / 3 + 1 ≤ a
      · rw [if_pos h3]; exact fun hEq => Res.noConfusion hEq
      · rw [if_neg h3]; exact fun hEq => Res.noConfusion hEq

/-- Witness for C5: one present parent out of one slot, threshold 1. -/
theorem spec_c5_witness :
    CandidateElection.parent_votes (CandidateElection.vote 1 wUnits) wCE1
        [some 20] = .ok ((1, 0), wCE1) ∧
      1 + 0 = (NodeMap.values [some 20]).length ∧
      (NodeMap.size [some 20] * 2 / 3 + 1 ≤ 1 + 0 →
        CandidateElection.vote_from_parents (CandidateElection.vote 1 wUnits)
            wCE1 [some 20] 2 ≠ .fatal) := by
  have h := spec_c5 1 wUnits wCE1 [some 20] 2 1 0 wCE1 (by decide)
  exact ⟨by decide, h.1, h.2.2⟩

/-- C6 (amended): `for_round` returns the not-ready error exactly when the
index's highest round is below `round + 3`; with enough look-ahead it never
reports not-ready (though a malformed index aborts fatally rather than
succeeding). -/
theorem spec_c6 (fuel R : Nat) (units : UnitsIndex) :
    RoundElection.for_round fuel R units = .notReady ↔
      units.highest_round < R + 3 := by
  constructor
  · intro h
    by_contra hge
    unfold RoundElection.for_round at h
    rw [if_neg hge] at h
    revert h
    cases (List.insertionSort (· ≤ ·) (units.in_round R)).reverse.getLast? with
    | none =>
      dsimp only
      exact fun h => RRes.noConfusion h
    | some ch =>
      dsimp only
      cases units.get ch with
      | none =>
        dsimp only
        exact fun h => RRes.noConfusion h
      | some cu =>
        dsimp only
        exact handleCER_ne_notReady _ _ _ _ _
  · intro h
    unfold RoundElection.for_round
    rw [if_pos h]

/-- Counterexample for C6 as stated: an index with three rounds of
look-ahead but no unit at round 0 makes `for_round` abort fatally instead
of succeeding. -/
theorem spec_c6_cex :
    0 + 3 ≤ wBadUnits.highest_round ∧
      RoundElection.for_round 5 0 wBadUnits = .fatal := by
  constructor
  · decide
  · rfl

/-- C10: eliminating the active candidate with no remaining candidate
aborts fatally (the pop of the next candidate has nothing to pop); no
pending or elected result is produced. -/
theorem spec_c10 (vF : Nat) (units : UnitsIndex) :
    handle_candidate_election_result vF (.err .EliminateCandidate) [] units
      = .fatal := rfl

/-- C8: the vote cache is write-once memoization: a successful vote
preserves every pre-existing entry, caches the voter with the returned
value, and a repeated request is a pure cache hit returning the identical
boolean with the state unchanged; `add_voter` and `compute_votes` likewise
never remove or overwrite entries. -/
theorem spec_c8 (fuel : Nat) (units : UnitsIndex) :
    (∀ ce v b ce', CandidateElection.vote fuel units ce v = .ok (b, ce') →
      (∀ h₀ b₀, findVote ce.votes h₀ = some b₀ →
        findVote ce'.votes h₀ = some b₀) ∧
      findVote ce'.votes v = some b ∧
      ∀ fuel₂, CandidateElection.vote (fuel₂ + 1) units ce' v = .ok (b, ce')) ∧
    (∀ ce voter ce₂, CandidateElection.add_voter fuel ce voter units = .ok ce₂ →
      ∀ h₀ b₀, findVote ce.votes h₀ = some b₀ →
        findVote ce₂.votes h₀ = some b₀) ∧
    (∀ ce ce₂, CandidateElection.compute_votes fuel ce units = .ok ce₂ →
      ∀ h₀ b₀, findVote ce.votes h₀ = some b₀ →
        findVote ce₂.votes h₀ = some b₀) := by
  refine ⟨?_, ?_, ?_⟩
  · intro ce v b ce' h
    have hcache := vote_caches fuel units ce v b ce' h
    exact ⟨(evolves_vote fuel units ce v b ce' h).2.2.2, hcache,
      fun fuel₂ => vote_cache_hit fuel₂ units ce' v b hcache⟩
  · intro ce voter ce₂ h
    cases hv : CandidateElection.vote fuel units ce voter with
    | ok r =>
      obtain ⟨b, ceX⟩ := r
      simp only [CandidateElection.add_voter, hv, Res.ok.injEq] at h
      exact h ▸ (evolves_vote fuel units ce voter b ceX hv).2.2.2
    | err e =>
      simp only [CandidateElection.add_voter, hv] at h; exact absurd h (by simp)
    | fatal =>
      simp only [CandidateElection.add_voter, hv] at h; exact absurd h (by simp)
    | outOfFuel =>
      simp only [CandidateElection.add_voter, hv] at h; exact absurd h (by simp)
  · intro ce ce₂ h
    exact (evolves_voteAll fuel units _ ce ce₂ h).2.2.2

/-- Witness for C8: the direct voter is computed once, cached, and
re-requesting it is a cache hit with identical result. -/
theorem spec_c8_witness :
    CandidateElection.vote 1 wUnits wCE 20 = .ok (true, wCE1) ∧
      findVote wCE1.votes 20 = some true ∧
      CandidateElection.vote 4 wUnits wCE1 20 = .ok (true, wCE1) := by
  have h : CandidateElection.vote 1 wUnits wCE 20 = .ok (true, wCE1) := by decide
  obtain ⟨_, h2, h3⟩ := (spec_c8 1 wUnits).1 wCE 20 true wCE1 h
  exact ⟨h, h2, h3 3⟩

/-- C9 (amended): adding a voter whose vote is already cached leaves the
pending election unchanged, so reordering such calls cannot change the
outcome; order-independence for genuinely new voters does not hold in
general (see the counterexample). -/
theorem spec_c9 (fuel : Nat) (e : RoundElection) (v : Nat)
    (units : UnitsIndex) (b : Bool)
    (h : findVote e.voting.votes v = some b) :
    RoundElection.add_voter (fuel + 1) e v units = .pending e := by
  show handle_candidate_election_result (fuel + 1)
      (CandidateElection.add_voter (fuel + 1) e.voting v units)
      e.candidates units = .pending e
  have hv := vote_cache_hit fuel units e.voting v b h
  have hav : CandidateElection.add_voter (fuel + 1) e.voting v units
      = .ok e.voting := by
    simp only [CandidateElection.add_voter, hv]
  rw [hav]
  rfl

/-- Witness for C9: re-adding the cached direct voter to a pending election
is a no-op. -/
theorem spec_c9_witness :
    findVote (RoundElection.mk [12] wCE1).voting.votes 20 = some true ∧
      RoundElection.add_voter 3 ⟨[12], wCE1⟩ 20 wUnits
        = .pending ⟨[12], wCE1⟩ :=
  ⟨by decide, spec_c9 2 ⟨[12], wCE1⟩ 20 wUnits true (by decide)⟩

theorem getLast_le_of_sorted_ge :
    ∀ (l : List Nat) (m : Nat), List.Sorted (· ≥ ·) l → l.getLast? = some m →
      ∀ x ∈ l, m ≤ x := by
  intro l
  induction l with
  | nil => intro m _ hm; simp at hm
  | cons a l ih =>
    intro m hs hm x hx
    cases l with
    | nil =>
      simp at hm
      rcases List.mem_singleton.mp hx with h
      omega
    | cons b l' =>
      rw [List.getLast?_cons_cons] at hm
      have hrel := List.rel_of_sorted_cons hs
      have htail := ih m hs.of_cons hm
      rcases List.mem_cons.mp hx with h | h
      · have hmb : m ≤ b := htail b (List.mem_cons_self b l')
        have hba : a ≥ b := hrel b (List.mem_cons_self b l')
        omega
      · exact htail x h

/-- C7: the coordinator takes candidates in ascending hash order: with
enough look-ahead `for_round` starts a fresh election for the smallest hash
of the round, eagerly computing all votes, with the rest kept in reverse
order; and on elimination the next candidate popped is the smallest
remaining hash, again with a brand-new eagerly-computed election. -/
theorem spec_c7 (fuel R : Nat) (units : UnitsIndex) (c : Nat) (cs : List Nat)
    (cu : ExtenderUnit) (cands : List Nat) (ch : Nat) (cu₂ : ExtenderUnit) :
    (R + 3 ≤ units.highest_round →
      List.insertionSort (· ≤ ·) (units.in_round R) = c :: cs →
      units.get c = some cu →
      RoundElection.for_round fuel R units
          = RoundElection.compute_votes fuel
              ⟨cs.reverse, CandidateElection.new cu⟩ units ∧
        ∀ x ∈ units.in_round R, c ≤ x) ∧
    (cands.getLast? = some ch →
      units.get ch = some cu₂ →
      handle_candidate_election_result fuel (.err .EliminateCandidate)
            cands units
          = RoundElection.compute_votes fuel
              ⟨cands.dropLast, CandidateElection.new cu₂⟩ units ∧
        (List.Sorted (· ≥ ·) cands → ∀ x ∈ cands, ch ≤ x)) := by
  constructor
  · intro hge hsort hget
    constructor
    · unfold RoundElection.for_round
      rw [if_neg (by omega), hsort]
      rw [show ((c :: cs).reverse).getLast? = some c from by simp]
      dsimp only
      rw [hget]
      dsimp only
      rw [show ((c :: cs).reverse).dropLast = cs.reverse from by simp]
    · intro x hx
      have hs := List.sorted_insertionSort (· ≤ ·) (units.in_round R)
      rw [hsort] at hs
      have hx' : x ∈ c :: cs := by rw [← hsort]; simp [hx]
      rcases List.mem_cons.mp hx' with h | h
      · omega
      · exact List.rel_of_sorted_cons hs x h
  · intro hlast hget
    have hne : cands ≠ [] := by
      intro h
      rw [h] at hlast
      simp at hlast
    constructor
    · show handleCER (cands.length + 1) fuel units (.err .EliminateCandidate)
          cands = _
      show handleStep (handleCER cands.length fuel units) fuel units
          (.err .EliminateCandidate) cands = _
      unfold handleStep
      rw [hlast]
      dsimp only
      rw [hget]
      dsimp only
      have hlen : cands.dropLast.length + 1 = cands.length := by
        rw [List.length_dropLast]
        have := List.length_pos.mpr hne
        omega
      show _ = handleCER (cands.dropLast.length + 1) fuel units
          (CandidateElection.compute_votes fuel (CandidateElection.new cu₂)
            units) cands.dropLast
      rw [hlen]
    · intro hsorted x hx
      exact getLast_le_of_sorted_ge cands ch hsorted hlast x hx

/-- Witness for C7: two round-0 candidates with hashes 5 and 7; the
election starts from 5, and after an elimination with remaining list
`[7, 5]` the next candidate popped is 5. -/
theorem spec_c7_witness :
    (0 + 3 ≤ w7Units.highest_round ∧
      List.insertionSort (· ≤ ·) (w7Units.in_round 0) = 5 :: [7] ∧
      w7Units.get 5 = some w7a) ∧
    (RoundElection.for_round 4 0 w7Units
        = RoundElection.compute_votes 4
            ⟨[7].reverse, CandidateElection.new w7a⟩ w7Units ∧
      ∀ x ∈ w7Units.in_round 0, 5 ≤ x) ∧
    (handle_candidate_election_result 4 (.err .EliminateCandidate) [7, 5]
          w7Units
        = RoundElection.compute_votes 4
            ⟨[7, 5].dropLast, CandidateElection.new w7a⟩ w7Units ∧
      ∀ x ∈ [7, 5], 5 ≤ x) := by
  have h := spec_c7 4 0 w7Units 5 [7] w7a [7, 5] 5 w7a
  have h1 := h.1 (by decide) (by decide) (by decide)
  have h2 := h.2 (by decide) (by decide)
  exact ⟨⟨by decide, by decide, by decide⟩, h1,
    ⟨h2.1, fun x hx => h2.2 (by decide) x hx⟩⟩

theorem c9v1 :
    CandidateElection.vote 20 units0 ⟨0, 0, 10, []⟩ 21
      = .ok (true, ⟨0, 0, 10, [(21, true)]⟩) := by rfl

theorem c9v2 :
    CandidateElection.vote 20 units0 ⟨0, 0, 10, [(21, true)]⟩ 22
      = .ok (false, ⟨0, 0, 10, [(22, false), (21, true)]⟩) := by rfl

theorem c9v3 :
    CandidateElection.vote 20 units0 ⟨0, 0, 10, [(22, false), (21, true)]⟩ 23
      = .ok (true, ⟨0, 0, 10, [(23, true), (22, false), (21, true)]⟩) := by rfl

theorem c9v4 :
    CandidateElection.vote 20 units0 ⟨0, 0, 10, [(23, true), (22, false), (21, true)]⟩ 24
      = .ok (false, ⟨0, 0, 10, [(24, false), (23, true), (22, false), (21, true)]⟩) := by rfl

theorem c9v5 :
    CandidateElection.vote 20 units0 ⟨0, 0, 10, [(24, false), (23, true), (22, false), (21, true)]⟩ 25
      = .ok (true, ⟨0, 0, 10, [(25, true), (24, false), (23, true), (22, false), (21, true)]⟩) := by rfl

theorem c9v6 :
    CandidateElection.vote 20 units0 ⟨0, 0, 10, [(25, true), (24, false), (23, true), (22, false), (21, true)]⟩ 26
      = .ok (true, ⟨0, 0, 10, [(26, true), (25, true), (24, false), (23, true), (22, false), (21, true)]⟩) := by rfl

theorem c9v7 :
    CandidateElection.vote 20 units0 ⟨0, 0, 10, [(26, true), (25, true), (24, false), (23, true), (22, false), (21, true)]⟩ 27
      = .ok (false, ⟨0, 0, 10, [(27, false), (26, true), (25, true), (24, false), (23, true), (22, false), (21, true)]⟩) := by rfl

theorem c9v8 :
    CandidateElection.vote 20 units0 ⟨0, 0, 10, [(27, false), (26, true), (25, true), (24, false), (23, true), (22, false), (21, true)]⟩ 31
      = .ok (true, ⟨0, 0, 10, [(31, true), (27, false), (26, true), (25, true), (24, false), (23, true), (22, false), (21, true)]⟩) := by rfl

theorem c9v9 :
    CandidateElection.vote 20 units0 ⟨0, 0, 10, [(31, true), (27, false), (26, true), (25, true), (24, false), (23, true), (22, false), (21, true)]⟩ 32
      = .ok (false, ⟨0, 0, 10, [(32, false), (31, true), (27, false), (26, true), (25, true), (24, false), (23, true), (22, false), (21, true)]⟩) := by rfl

theorem c9v10 :
    CandidateElection.vote 20 units0 ⟨0, 0, 10, [(32, false), (31, true), (27, false), (26, true), (25, true), (24, false), (23, true), (22, false), (21, true)]⟩ 33
      = .ok (true, ⟨0, 0, 10, [(33, true), (32, false), (31, true), (27, false), (26, true), (25, true), (24, false), (23, true), (22, false), (21, true)]⟩) := by rfl

theorem c9v11 :
    CandidateElection.vote 20 units0 ⟨0, 0, 10, [(33, true), (32, false), (31, true), (27, false), (26, true), (25, true), (24, false), (23, true), (22, false), (21, true)]⟩ 34
      = .ok (false, ⟨0, 0, 10, [(34, false), (33, true), (32, false), (31, true), (27, false), (26, true), (25, true), (24, false), (23, true), (22, false), (21, true)]⟩) := by rfl

theorem c9v12 :
    CandidateElection.vote 20 units0 ⟨0, 0, 10, [(34, false), (33, true), (32, false), (31, true), (27, false), (26, true), (25, true), (24, false), (23, true), (22, false), (21, true)]⟩ 35
      = .ok (true, ⟨0, 0, 10, [(35, true), (34, false), (33, true), (32, false), (31, true), (27, false), (26, true), (25, true), (24, false), (23, true), (22, false), (21, true)]⟩) := by rfl

theorem c9v13 :
    CandidateElection.vote 20 units0 ⟨0, 0, 10, [(35, true), (34, false), (33, true), (32, false), (31, true), (27, false), (26, true), (25, true), (24, false), (23, true), (22, false), (21, true)]⟩ 36
      = .ok (true, ⟨0, 0, 10, [(36, true), (35, true), (34, false), (33, true), (32, false), (31, true), (27, false), (26, true), (25, true), (24, false), (23, true), (22, false), (21, true)]⟩) := by rfl

theorem c9v14 :
    CandidateElection.vote 20 units0 ⟨0, 0, 10, [(36, true), (35, true), (34, false), (33, true), (32, false), (31, true), (27, false), (26, true), (25, true), (24, false), (23, true), (22, false), (21, true)]⟩ 37
      = .ok (false, ⟨0, 0, 10, [(37, false), (36, true), (35, true), (34, false), (33, true), (32, false), (31, true), (27, false), (26, true), (25, true), (24, false), (23, true), (22, false), (21, true)]⟩) := by rfl

theorem c9v15 :
    CandidateElection.vote 20 units0 ⟨0, 0, 10, [(37, false), (36, true), (35, true), (34, false), (33, true), (32, false), (31, true), (27, false), (26, true), (25, true), (24, false), (23, true), (22, false), (21, true)]⟩ 41
      = .ok (true, ⟨0, 0, 10, [(41, true), (37, false), (36, true), (35, true), (34, false), (33, true), (32, false), (31, true), (27, false), (26, true), (25, true), (24, false), (23, true), (22, false), (21, true)]⟩) := by rfl

theorem c9v16 :
    CandidateElection.vote 20 units0 ⟨0, 0, 10, [(41, true), (37, false), (36, true), (35, true), (34, false), (33, true), (32, false), (31, true), (27, false), (26, true), (25, true), (24, false), (23, true), (22, false), (21, true)]⟩ 42
      = .ok (false, ⟨0, 0, 10, [(42, false), (41, true), (37, false), (36, true), (35, true), (34, false), (33, true), (32, false), (31, true), (27, false), (26, true), (25, true), (24, false), (23, true), (22, false), (21, true)]⟩) := by rfl

theorem c9v17 :
    CandidateElection.vote 20 units0 ⟨0, 0, 10, [(42, false), (41, true), (37, false), (36, true), (35, true), (34, false), (33, true), (32, false), (31, true), (27, false), (26, true), (25, true), (24, false), (23, true), (22, false), (21, true)]⟩ 51
      = .ok (true, ⟨0, 0, 10, [(51, true), (42, false), (41, true), (37, false), (36, true), (35, true), (34, false), (33, true), (32, false), (31, true), (27, false), (26, true), (25, true), (24, false), (23, true), (22, false), (21, true)]⟩) := by rfl

theorem c9v18 :
    CandidateElection.vote 20 units0 ⟨0, 0, 10, [(51, true), (42, false), (41, true), (37, false), (36, true), (35, true), (34, false), (33, true), (32, false), (31, true), (27, false), (26, true), (25, true), (24, false), (23, true), (22, false), (21, true)]⟩ 52
      = .ok (false, ⟨0, 0, 10, [(52, false), (51, true), (42, false), (41, true), (37, false), (36, true), (35, true), (34, false), (33, true), (32, false), (31, true), (27, false), (26, true), (25, true), (24, false), (23, true), (22, false), (21, true)]⟩) := by rfl

theorem c9v19 :
    CandidateElection.vote 20 units0 ⟨0, 0, 10, [(52, false), (51, true), (42, false), (41, true), (37, false), (36, true), (35, true), (34, false), (33, true), (32, false), (31, true), (27, false), (26, true), (25, true), (24, false), (23, true), (22, false), (21, true)]⟩ 61
      = .ok (true, ⟨0, 0, 10, [(61, true), (52, false), (51, true), (42, false), (41, true), (37, false), (36, true), (35, true), (34, false), (33, true), (32, false), (31, true), (27, false), (26, true), (25, true), (24, false), (23, true), (22, false), (21, true)]⟩) := by rfl

theorem c9v20 :
    CandidateElection.vote 20 units0 ⟨0, 0, 10, [(61, true), (52, false), (51, true), (42, false), (41, true), (37, false), (36, true), (35, true), (34, false), (33, true), (32, false), (31, true), (27, false), (26, true), (25, true), (24, false), (23, true), (22, false), (21, true)]⟩ 62
      = .ok (false, ⟨0, 0, 10, [(62, false), (61, true), (52, false), (51, true), (42, false), (41, true), (37, false), (36, true), (35, true), (34, false), (33, true), (32, false), (31, true), (27, false), (26, true), (25, true), (24, false), (23, true), (22, false), (21, true)]⟩) := by rfl

theorem c9v21 :
    CandidateElection.vote 20 idxB ⟨0, 0, 10, [(62, false), (61, true), (52, false), (51, true), (42, false), (41, true), (37, false), (36, true), (35, true), (34, false), (33, true), (32, false), (31, true), (27, false), (26, true), (25, true), (24, false), (23, true), (22, false), (21, true)]⟩ 71
      = .ok (false, ⟨0, 0, 10, [(71, false), (62, false), (61, true), (52, false), (51, true), (42, false), (41, true), (37, false), (36, true), (35, true), (34, false), (33, true), (32, false), (31, true), (27, false), (26, true), (25, true), (24, false), (23, true), (22, false), (21, true)]⟩) := by rfl

theorem c9v22 :
    CandidateElection.vote 20 idxR1a ⟨0, 0, 10, [(71, false), (62, false), (61, true), (52, false), (51, true), (42, false), (41, true), (37, false), (36, true), (35, true), (34, false), (33, true), (32, false), (31, true), (27, false), (26, true), (25, true), (24, false), (23, true), (22, false), (21, true)]⟩ 53
      = .ok (true, ⟨0, 0, 10, [(53, true), (71, false), (62, false), (61, true), (52, false), (51, true), (42, false), (41, true), (37, false), (36, true), (35, true), (34, false), (33, true), (32, false), (31, true), (27, false), (26, true), (25, true), (24, false), (23, true), (22, false), (21, true)]⟩) := by rfl

theorem c9v23 :
    CandidateElection.vote 20 idxR1b ⟨0, 0, 10, [(53, true), (71, false), (62, false), (61, true), (52, false), (51, true), (42, false), (41, true), (37, false), (36, true), (35, true), (34, false), (33, true), (32, false), (31, true), (27, false), (26, true), (25, true), (24, false), (23, true), (22, false), (21, true)]⟩ 43
      = .err .EliminateCandidate := by rfl

theorem c9v24 :
    CandidateElection.vote 20 idxR1b ⟨0, 1, 11, []⟩ 21
      = .ok (false, ⟨0, 1, 11, [(21, false)]⟩) := by rfl

theorem c9v25 :
    CandidateElection.vote 20 idxR1b ⟨0, 1, 11, [(21, false)]⟩ 22
      = .ok (false, ⟨0, 1, 11, [(22, false), (21, false)]⟩) := by rfl

theorem c9v26 :
    CandidateElection.vote 20 idxR1b ⟨0, 1, 11, [(22, false), (21, false)]⟩ 23
      = .ok (false, ⟨0, 1, 11, [(23, false), (22, false), (21, false)]⟩) := by rfl

theorem c9v27 :
    CandidateElection.vote 20 idxR1b ⟨0, 1, 11, [(23, false), (22, false), (21, false)]⟩ 24
      = .ok (false, ⟨0, 1, 11, [(24, false), (23, false), (22, false), (21, false)]⟩) := by rfl

theorem c9v28 :
    CandidateElection.vote 20 idxR1b ⟨0, 1, 11, [(24, false), (23, false), (22, false), (21, false)]⟩ 25
      = .ok (true, ⟨0, 1, 11, [(25, true), (24, false), (23, false), (22, false), (21, false)]⟩) := by rfl

theorem c9v29 :
    CandidateElection.vote 20 idxR1b ⟨0, 1, 11, [(25, true), (24, false), (23, false), (22, false), (21, false)]⟩ 26
      = .ok (true, ⟨0, 1, 11, [(26, true), (25, true), (24, false), (23, false), (22, false), (21, false)]⟩) := by rfl

theorem c9v30 :
    CandidateElection.vote 20 idxR1b ⟨0, 1, 11, [(26, true), (25, true), (24, false), (23, false), (22, false), (21, false)]⟩ 27
      = .ok (true, ⟨0, 1, 11, [(27, true), (26, true), (25, true), (24, false), (23, false), (22, false), (21, false)]⟩) := by rfl

theorem c9v31 :
    CandidateElection.vote 20 idxR1b ⟨0, 1, 11, [(27, true), (26, true), (25, true), (24, false), (23, false), (22, false), (21, false)]⟩ 31
      = .ok (false, ⟨0, 1, 11, [(31, false), (27, true), (26, true), (25, true), (24, false), (23, false), (22, false), (21, false)]⟩) := by rfl

theorem c9v32 :
    CandidateElection.vote 20 idxR1b ⟨0, 1, 11, [(31, false), (27, true), (26, true), (25, true), (24, false), (23, false), (22, false), (21, false)]⟩ 32
      = .ok (false, ⟨0, 1, 11, [(32, false), (31, false), (27, true), (26, true), (25, true), (24, false), (23, false), (22, false), (21, false)]⟩) := by rfl

theorem c9v33 :
    CandidateElection.vote 20 idxR1b ⟨0, 1, 11, [(32, false), (31, false), (27, true), (26, true), (25, true), (24, false), (23, false), (22, false), (21, false)]⟩ 33
      = .ok (false, ⟨0, 1, 11, [(33, false), (32, false), (31, false), (27, true), (26, true), (25, true), (24, false), (23, false), (22, false), (21, false)]⟩) := by rfl

theorem c9v34 :
    CandidateElection.vote 20 idxR1b ⟨0, 1, 11, [(33, false), (32, false), (31, false), (27, true), (26, true), (25, true), (24, false), (23, false), (22, false), (21, false)]⟩ 34
      = .ok (false, ⟨0, 1, 11, [(34, false), (33, false), (32, false), (31, false), (27, true), (26, true), (25, true), (24, false), (23, false), (22, false), (21, false)]⟩) := by rfl

theorem c9v35 :
    CandidateElection.vote 20 idxR1b ⟨0, 1, 11, [(34, false), (33, false), (32, false), (31, false), (27, true), (26, true), (25, true), (24, false), (23, false), (22, false), (21, false)]⟩ 35
      = .ok (true, ⟨0, 1, 11, [(35, true), (34, false), (33, false), (32, false), (31, false), (27, true), (26, true), (25, true), (24, false), (23, false), (22, false), (21, false)]⟩) := by rfl

theorem c9v36 :
    CandidateElection.vote 20 idxR1b ⟨0, 1, 11, [(35, true), (34, false), (33, false), (32, false), (31, false), (27, true), (26, true), (25, true), (24, false), (23, false), (22, false), (21, false)]⟩ 36
      = .ok (true, ⟨0, 1, 11, [(36, true), (35, true), (34, false), (33, false), (32, false), (31, false), (27, true), (26, true), (25, true), (24, false), (23, false), (22, false), (21, false)]⟩) := by rfl

theorem c9v37 :
    CandidateElection.vote 20 idxR1b ⟨0, 1, 11, [(36, true), (35, true), (34, false), (33, false), (32, false), (31, false), (27, true), (26, true), (25, true), (24, false), (23, false), (22, false), (21, false)]⟩ 37
      = .ok (true, ⟨0, 1, 11, [(37, true), (36, true), (35, true), (34, false), (33, false), (32, false), (31, false), (27, true), (26, true), (25, true), (24, false), (23, false), (22, false), (21, false)]⟩) := by rfl

theorem c9v38 :
    CandidateElection.vote 20 idxR1b ⟨0, 1, 11, [(37, true), (36, true), (35, true), (34, false), (33, false), (32, false), (31, false), (27, true), (26, true), (25, true), (24, false), (23, false), (22, false), (21, false)]⟩ 41
      = .ok (false, ⟨0, 1, 11, [(41, false), (37, true), (36, true), (35, true), (34, false), (33, false), (32, false), (31, false), (27, true), (26, true), (25, true), (24, false), (23, false), (22, false), (21, false)]⟩) := by rfl

theorem c9v39 :
    CandidateElection.vote 20 idxR1b ⟨0, 1, 11, [(41, false), (37, true), (36, true), (35, true), (34, false), (33, false), (32, false), (31, false), (27, true), (26, true), (25, true), (24, false), (23, false), (22, false), (21, false)]⟩ 42
      = .ok (false, ⟨0, 1, 11, [(42, false), (41, false), (37, true), (36, true), (35, true), (34, false), (33, false), (32, false), (31, false), (27, true), (26, true), (25, true), (24, false), (23, false), (22, false), (21, false)]⟩) := by rfl

theorem c9v40 :
    CandidateElection.vote 20 idxR1b ⟨0, 1, 11, [(42, false), (41, false), (37, true), (36, true), (35, true), (34, false), (33, false), (32, false), (31, false), (27, true), (26, true), (25, true), (24, false), (23, false), (22, false), (21, false)]⟩ 43
      = .ok (false, ⟨0, 1, 11, [(43, false), (42, false), (41, false), (37, true), (36, true), (35, true), (34, false), (33, false), (32, false), (31, false), (27, true), (26, true), (25, true), (24, false), (23, false), (22, false), (21, false)]⟩) := by rfl

theorem c9v41 :
    CandidateElection.vote 20 idxR1b ⟨0, 1, 11, [(43, false), (42, false), (41, false), (37, true), (36, true), (35, true), (34, false), (33, false), (32, false), (31, false), (27, true), (26, true), (25, true), (24, false), (23, false), (22, false), (21, false)]⟩ 51
      = .ok (false, ⟨0, 1, 11, [(51, false), (43, false), (42, false), (41, false), (37, true), (36, true), (35, true), (34, false), (33, false), (32, false), (31, false), (27, true), (26, true), (25, true), (24, false), (23, false), (22, false), (21, false)]⟩) := by rfl

theorem c9v42 :
    CandidateElection.vote 20 idxR1b ⟨0, 1, 11, [(51, false), (43, false), (42, false), (41, false), (37, true), (36, true), (35, true), (34, false), (33, false), (32, false), (31, false), (27, true), (26, true), (25, true), (24, false), (23, false), (22, false), (21, false)]⟩ 52
      = .ok (false, ⟨0, 1, 11, [(52, false), (51, false), (43, false), (42, false), (41, false), (37, true), (36, true), (35, true), (34, false), (33, false), (32, false), (31, false), (27, true), (26, true), (25, true), (24, false), (23, false), (22, false), (21, false)]⟩) := by rfl

theorem c9v43 :
    CandidateElection.vote 20 idxR1b ⟨0, 1, 11, [(52, false), (51, false), (43, false), (42, false), (41, false), (37, true), (36, true), (35, true), (34, false), (33, false), (32, false), (31, false), (27, true), (26, true), (25, true), (24, false), (23, false), (22, false), (21, false)]⟩ 53
      = .err (.ElectionDone 11) := by rfl

theorem c9v44 :
    CandidateElection.vote 20 idxR2a ⟨0, 0, 10, [(71, false), (62, false), (61, true), (52, false), (51, true), (42, false), (41, true), (37, false), (36, true), (35, true), (34, false), (33, true), (32, false), (31, true), (27, false), (26, true), (25, true), (24, false), (23, true), (22, false), (21, true)]⟩ 43
      = .err .EliminateCandidate := by rfl

theorem c9v45 :
    CandidateElection.vote 20 idxR2a ⟨0, 1, 11, []⟩ 21
      = .ok (false, ⟨0, 1, 11, [(21, false)]⟩) := by rfl

theorem c9v46 :
    CandidateElection.vote 20 idxR2a ⟨0, 1, 11, [(21, false)]⟩ 22
      = .ok (false, ⟨0, 1, 11, [(22, false), (21, false)]⟩) := by rfl

theorem c9v47 :
    CandidateElection.vote 20 idxR2a ⟨0, 1, 11, [(22, false), (21, false)]⟩ 23
      = .ok (false, ⟨0, 1, 11, [(23, false), (22, false), (21, false)]⟩) := by rfl

theorem c9v48 :
    CandidateElection.vote 20 idxR2a ⟨0, 1, 11, [(23, false), (22, false), (21, false)]⟩ 24
      = .ok (false, ⟨0, 1, 11, [(24, false), (23, false), (22, false), (21, false)]⟩) := by rfl

theorem c9v49 :
    CandidateElection.vote 20 idxR2a ⟨0, 1, 11, [(24, false), (23, false), (22, false), (21, false)]⟩ 25
      = .ok (true, ⟨0, 1, 11, [(25, true), (24, false), (23, false), (22, false), (21, false)]⟩) := by rfl

theorem c9v50 :
    CandidateElection.vote 20 idxR2a ⟨0, 1, 11, [(25, true), (24, false), (23, false), (22, false), (21, false)]⟩ 26
      = .ok (true, ⟨0, 1, 11, [(26, true), (25, true), (24, false), (23, false), (22, false), (21, false)]⟩) := by rfl

theorem c9v51 :
    CandidateElection.vote 20 idxR2a ⟨0, 1, 11, [(26, true), (25, true), (24, false), (23, false), (22, false), (21, false)]⟩ 27
      = .ok (true, ⟨0, 1, 11, [(27, true), (26, true), (25, true), (24, false), (23, false), (22, false), (21, false)]⟩) := by rfl

theorem c9v52 :
    CandidateElection.vote 20 idxR2a ⟨0, 1, 11, [(27, true), (26, true), (25, true), (24, false), (23, false), (22, false), (21, false)]⟩ 31
      = .ok (false, ⟨0, 1, 11, [(31, false), (27, true), (26, true), (25, true), (24, false), (23, false), (22, false), (21, false)]⟩) := by rfl

theorem c9v53 :
    CandidateElection.vote 20 idxR2a ⟨0, 1, 11, [(31, false), (27, true), (26, true), (25, true), (24, false), (23, false), (22, false), (21, false)]⟩ 32
      = .ok (false, ⟨0, 1, 11, [(32, false), (31, false), (27, true), (26, true), (25, true), (24, false), (23, false), (22, false), (21, false)]⟩) := by rfl

theorem c9v54 :
    CandidateElection.vote 20 idxR2a ⟨0, 1, 11, [(32, false), (31, false), (27, true), (26, true), (25, true), (24, false), (23, false), (22, false), (21, false)]⟩ 33
      = .ok (false, ⟨0, 1, 11, [(33, false), (32, false), (31, false), (27, true), (26, true), (25, true), (24, false), (23, false), (22, false), (21, false)]⟩) := by rfl

theorem c9v55 :
    CandidateElection.vote 20 idxR2a ⟨0, 1, 11, [(33, false), (32, false), (31, false), (27, true), (26, true), (25, true), (24, false), (23, false), (22, false), (21, false)]⟩ 34
      = .ok (false, ⟨0, 1, 11, [(34, false), (33, false), (32, false), (31, false), (27, true), (26, true), (25, true), (24, false), (23, false), (22, false), (21, false)]⟩) := by rfl

theorem c9v56 :
    CandidateElection.vote 20 idxR2a ⟨0, 1, 11, [(34, false), (33, false), (32, false), (31, false), (27, true), (26, true), (25, true), (24, false), (23, false), (22, false), (21, false)]⟩ 35
      = .ok (true, ⟨0, 1, 11, [(35, true), (34, false), (33, false), (32, false), (31, false), (27, true), (26, true), (25, true), (24, false), (23, false), (22, false), (21, false)]⟩) := by rfl

theorem c9v57 :
    CandidateElection.vote 20 idxR2a ⟨0, 1, 11, [(35, true), (34, false), (33, false), (32, false), (31, false), (27, true), (26, true), (25, true), (24, false), (23, false), (22, false), (21, false)]⟩ 36
      = .ok (true, ⟨0, 1, 11, [(36, true), (35, true), (34, false), (33, false), (32, false), (31, false), (27, true), (26, true), (25, true), (24, false), (23, false), (22, false), (21, false)]⟩) := by rfl

theorem c9v58 :
    CandidateElection.vote 20 idxR2a ⟨0, 1, 11, [(36, true), (35, true), (34, false), (33, false), (32, false), (31, false), (27, true), (26, true), (25, true), (24, false), (23, false), (22, false), (21, false)]⟩ 37
      = .ok (true, ⟨0, 1, 11, [(37, true), (36, true), (35, true), (34, false), (33, false), (32, false), (31, false), (27, true), (26, true), (25, true), (24, false), (23, false), (22, false), (21, false)]⟩) := by rfl

theorem c9v59 :
    CandidateElection.vote 20 idxR2a ⟨0, 1, 11, [(37, true), (36, true), (35, true), (34, false), (33, false), (32, false), (31, false), (27, true), (26, true), (25, true), (24, false), (23, false), (22, false), (21, false)]⟩ 41
      = .ok (false, ⟨0, 1, 11, [(41, false), (37, true), (36, true), (35, true), (34, false), (33, false), (32, false), (31, false), (27, true), (26, true), (25, true), (24, false), (23, false), (22, false), (21, false)]⟩) := by rfl

theorem c9v60 :
    CandidateElection.vote 20 idxR2a ⟨0, 1, 11, [(41, false), (37, true), (36, true), (35, true), (34, false), (33, false), (32, false), (31, false), (27, true), (26, true), (25, true), (24, false), (23, false), (22, false), (21, false)]⟩ 42
      = .ok (false, ⟨0, 1, 11, [(42, false), (41, false), (37, true), (36, true), (35, true), (34, false), (33, false), (32, false), (31, false), (27, true), (26, true), (25, true), (24, false), (23, false), (22, false), (21, false)]⟩) := by rfl

theorem c9v61 :
    CandidateElection.vote 20 idxR2a ⟨0, 1, 11, [(42, false), (41, false), (37, true), (36, true), (35, true), (34, false), (33, false), (32, false), (31, false), (27, true), (26, true), (25, true), (24, false), (23, false), (22, false), (21, false)]⟩ 43
      = .ok (false, ⟨0, 1, 11, [(43, false), (42, false), (41, false), (37, true), (36, true), (35, true), (34, false), (33, false), (32, false), (31, false), (27, true), (26, true), (25, true), (24, false), (23, false), (22, false), (21, false)]⟩) := by rfl

theorem c9v62 :
    CandidateElection.vote 20 idxR2a ⟨0, 1, 11, [(43, false), (42, false), (41, false), (37, true), (36, true), (35, true), (34, false), (33, false), (32, false), (31, false), (27, true), (26, true), (25, true), (24, false), (23, false), (22, false), (21, false)]⟩ 51
      = .ok (false, ⟨0, 1, 11, [(51, false), (43, false), (42, false), (41, false), (37, true), (36, true), (35, true), (34, false), (33, false), (32, false), (31, false), (27, true), (26, true), (25, true), (24, false), (23, false), (22, false), (21, false)]⟩) := by rfl

theorem c9v63 :
    CandidateElection.vote 20 idxR2a ⟨0, 1, 11, [(51, false), (43, false), (42, false), (41, false), (37, true), (36, true), (35, true), (34, false), (33, false), (32, false), (31, false), (27, true), (26, true), (25, true), (24, false), (23, false), (22, false), (21, false)]⟩ 52
      = .ok (false, ⟨0, 1, 11, [(52, false), (51, false), (43, false), (42, false), (41, false), (37, true), (36, true), (35, true), (34, false), (33, false), (32, false), (31, false), (27, true), (26, true), (25, true), (24, false), (23, false), (22, false), (21, false)]⟩) := by rfl

theorem c9v64 :
    CandidateElection.vote 20 idxR2a ⟨0, 1, 11, [(52, false), (51, false), (43, false), (42, false), (41, false), (37, true), (36, true), (35, true), (34, false), (33, false), (32, false), (31, false), (27, true), (26, true), (25, true), (24, false), (23, false), (22, false), (21, false)]⟩ 61
      = .ok (false, ⟨0, 1, 11, [(61, false), (52, false), (51, false), (43, false), (42, false), (41, false), (37, true), (36, true), (35, true), (34, false), (33, false), (32, false), (31, false), (27, true), (26, true), (25, true), (24, false), (23, false), (22, false), (21, false)]⟩) := by rfl

theorem c9v65 :
    CandidateElection.vote 20 idxR2a ⟨0, 1, 11, [(61, false), (52, false), (51, false), (43, false), (42, false), (41, false), (37, true), (36, true), (35, true), (34, false), (33, false), (32, false), (31, false), (27, true), (26, true), (25, true), (24, false), (23, false), (22, false), (21, false)]⟩ 62
      = .ok (false, ⟨0, 1, 11, [(62, false), (61, false), (52, false), (51, false), (43, false), (42, false), (41, false), (37, true), (36, true), (35, true), (34, false), (33, false), (32, false), (31, false), (27, true), (26, true), (25, true), (24, false), (23, false), (22, false), (21, false)]⟩) := by rfl

theorem c9v66 :
    CandidateElection.vote 20 idxR2a ⟨0, 1, 11, [(62, false), (61, false), (52, false), (51, false), (43, false), (42, false), (41, false), (37, true), (36, true), (35, true), (34, false), (33, false), (32, false), (31, false), (27, true), (26, true), (25, true), (24, false), (23, false), (22, false), (21, false)]⟩ 71
      = .err .EliminateCandidate := by rfl

theorem c9v67 :
    CandidateElection.vote 20 idxR2a ⟨0, 2, 12, []⟩ 21
      = .ok (false, ⟨0, 2, 12, [(21, false)]⟩) := by rfl

theorem c9v68 :
    CandidateElection.vote 20 idxR2a ⟨0, 2, 12, [(21, false)]⟩ 22
      = .ok (false, ⟨0, 2, 12, [(22, false), (21, false)]⟩) := by rfl

theorem c9v69 :
    CandidateElection.vote 20 idxR2a ⟨0, 2, 12, [(22, false), (21, false)]⟩ 23
      = .ok (true, ⟨0, 2, 12, [(23, true), (22, false), (21, false)]⟩) := by rfl

theorem c9v70 :
    CandidateElection.vote 20 idxR2a ⟨0, 2, 12, [(23, true), (22, false), (21, false)]⟩ 24
      = .ok (true, ⟨0, 2, 12, [(24, true), (23, true), (22, false), (21, false)]⟩) := by rfl

theorem c9v71 :
    CandidateElection.vote 20 idxR2a ⟨0, 2, 12, [(24, true), (23, true), (22, false), (21, false)]⟩ 25
      = .ok (false, ⟨0, 2, 12, [(25, false), (24, true), (23, true), (22, false), (21, false)]⟩) := by rfl

theorem c9v72 :
    CandidateElection.vote 20 idxR2a ⟨0, 2, 12, [(25, false), (24, true), (23, true), (22, false), (21, false)]⟩ 26
      = .ok (true, ⟨0, 2, 12, [(26, true), (25, false), (24, true), (23, true), (22, false), (21, false)]⟩) := by rfl

theorem c9v73 :
    CandidateElection.vote 20 idxR2a ⟨0, 2, 12, [(26, true), (25, false), (24, true), (23, true), (22, false), (21, false)]⟩ 27
      = .ok (true, ⟨0, 2, 12, [(27, true), (26, true), (25, false), (24, true), (23, true), (22, false), (21, false)]⟩) := by rfl

theorem c9v74 :
    CandidateElection.vote 20 idxR2a ⟨0, 2, 12, [(27, true), (26, true), (25, false), (24, true), (23, true), (22, false), (21, false)]⟩ 31
      = .ok (false, ⟨0, 2, 12, [(31, false), (27, true), (26, true), (25, false), (24, true), (23, true), (22, false), (21, false)]⟩) := by rfl

theorem c9v75 :
    CandidateElection.vote 20 idxR2a ⟨0, 2, 12, [(31, false), (27, true), (26, true), (25, false), (24, true), (23, true), (22, false), (21, false)]⟩ 32
      = .ok (false, ⟨0, 2, 12, [(32, false), (31, false), (27, true), (26, true), (25, false), (24, true), (23, true), (22, false), (21, false)]⟩) := by rfl

theorem c9v76 :
    CandidateElection.vote 20 idxR2a ⟨0, 2, 12, [(32, false), (31, false), (27, true), (26, true), (25, false), (24, true), (23, true), (22, false), (21, false)]⟩ 33
      = .ok (true, ⟨0, 2, 12, [(33, true), (32, false), (31, false), (27, true), (26, true), (25, false), (24, true), (23, true), (22, false), (21, false)]⟩) := by rfl

theorem c9v77 :
    CandidateElection.vote 20 idxR2a ⟨0, 2, 12, [(33, true), (32, false), (31, false), (27, true), (26, true), (25, false), (24, true), (23, true), (22, false), (21, false)]⟩ 34
      = .ok (true, ⟨0, 2, 12, [(34, true), (33, true), (32, false), (31, false), (27, true), (26, true), (25, false), (24, true), (23, true), (22, false), (21, false)]⟩) := by rfl

theorem c9v78 :
    CandidateElection.vote 20 idxR2a ⟨0, 2, 12, [(34, true), (33, true), (32, false), (31, false), (27, true), (26, true), (25, false), (24, true), (23, true), (22, false), (21, false)]⟩ 35
      = .ok (false, ⟨0, 2, 12, [(35, false), (34, true), (33, true), (32, false), (31, false), (27, true), (26, true), (25, false), (24, true), (23, true), (22, false), (21, false)]⟩) := by rfl

theorem c9v79 :
    CandidateElection.vote 20 idxR2a ⟨0, 2, 12, [(35, false), (34, true), (33, true), (32, false), (31, false), (27, true), (26, true), (25, false), (24, true), (23, true), (22, false), (21, false)]⟩ 36
      = .ok (true, ⟨0, 2, 12, [(36, true), (35, false), (34, true), (33, true), (32, false), (31, false), (27, true), (26, true), (25, false), (24, true), (23, true), (22, false), (21, false)]⟩) := by rfl

theorem c9v80 :
    CandidateElection.vote 20 idxR2a ⟨0, 2, 12, [(36, true), (35, false), (34, true), (33, true), (32, false), (31, false), (27, true), (26, true), (25, false), (24, true), (23, true), (22, false), (21, false)]⟩ 37
      = .ok (true, ⟨0, 2, 12, [(37, true), (36, true), (35, false), (34, true), (33, true), (32, false), (31, false), (27, true), (26, true), (25, false), (24, true), (23, true), (22, false), (21, false)]⟩) := by rfl

theorem c9v81 :
    CandidateElection.vote 20 idxR2a ⟨0, 2, 12, [(37, true), (36, true), (35, false), (34, true), (33, true), (32, false), (31, false), (27, true), (26, true), (25, false), (24, true), (23, true), (22, false), (21, false)]⟩ 41
      = .ok (true, ⟨0, 2, 12, [(41, true), (37, true), (36, true), (35, false), (34, true), (33, true), (32, false), (31, false), (27, true), (26, true), (25, false), (24, true), (23, true), (22, false), (21, false)]⟩) := by rfl

theorem c9v82 :
    CandidateElection.vote 20 idxR2a ⟨0, 2, 12, [(41, true), (37, true), (36, true), (35, false), (34, true), (33, true), (32, false), (31, false), (27, true), (26, true), (25, false), (24, true), (23, true), (22, false), (21, false)]⟩ 42
      = .ok (false, ⟨0, 2, 12, [(42, false), (41, true), (37, true), (36, true), (35, false), (34, true), (33, true), (32, false), (31, false), (27, true), (26, true), (25, false), (24, true), (23, true), (22, false), (21, false)]⟩) := by rfl

theorem c9v83 :
    CandidateElection.vote 20 idxR2a ⟨0, 2, 12, [(42, false), (41, true), (37, true), (36, true), (35, false), (34, true), (33, true), (32, false), (31, false), (27, true), (26, true), (25, false), (24, true), (23, true), (22, false), (21, false)]⟩ 43
      = .ok (true, ⟨0, 2, 12, [(43, true), (42, false), (41, true), (37, true), (36, true), (35, false), (34, true), (33, true), (32, false), (31, false), (27, true), (26, true), (25, false), (24, true), (23, true), (22, false), (21, false)]⟩) := by rfl

theorem c9v84 :
    CandidateElection.vote 20 idxR2a ⟨0, 2, 12, [(43, true), (42, false), (41, true), (37, true), (36, true), (35, false), (34, true), (33, true), (32, false), (31, false), (27, true), (26, true), (25, false), (24, true), (23, true), (22, false), (21, false)]⟩ 51
      = .ok (true, ⟨0, 2, 12, [(51, true), (43, true), (42, false), (41, true), (37, true), (36, true), (35, false), (34, true), (33, true), (32, false), (31, false), (27, true), (26, true), (25, false), (24, true), (23, true), (22, false), (21, false)]⟩) := by rfl

theorem c9v85 :
    CandidateElection.vote 20 idxR2a ⟨0, 2, 12, [(51, true), (43, true), (42, false), (41, true), (37, true), (36, true), (35, false), (34, true), (33, true), (32, false), (31, false), (27, true), (26, true), (25, false), (24, true), (23, true), (22, false), (21, false)]⟩ 52
      = .ok (false, ⟨0, 2, 12, [(52, false), (51, true), (43, true), (42, false), (41, true), (37, true), (36, true), (35, false), (34, true), (33, true), (32, false), (31, false), (27, true), (26, true), (25, false), (24, true), (23, true), (22, false), (21, false)]⟩) := by rfl

theorem c9v86 :
    CandidateElection.vote 20 idxR2a ⟨0, 2, 12, [(52, false), (51, true), (43, true), (42, false), (41, true), (37, true), (36, true), (35, false), (34, true), (33, true), (32, false), (31, false), (27, true), (26, true), (25, false), (24, true), (23, true), (22, false), (21, false)]⟩ 61
      = .ok (true, ⟨0, 2, 12, [(61, true), (52, false), (51, true), (43, true), (42, false), (41, true), (37, true), (36, true), (35, false), (34, true), (33, true), (32, false), (31, false), (27, true), (26, true), (25, false), (24, true), (23, true), (22, false), (21, false)]⟩) := by rfl

theorem c9v87 :
    CandidateElection.vote 20 idxR2a ⟨0, 2, 12, [(61, true), (52, false), (51, true), (43, true), (42, false), (41, true), (37, true), (36, true), (35, false), (34, true), (33, true), (32, false), (31, false), (27, true), (26, true), (25, false), (24, true), (23, true), (22, false), (21, false)]⟩ 62
      = .ok (false, ⟨0, 2, 12, [(62, false), (61, true), (52, false), (51, true), (43, true), (42, false), (41, true), (37, true), (36, true), (35, false), (34, true), (33, true), (32, false), (31, false), (27, true), (26, true), (25, false), (24, true), (23, true), (22, false), (21, false)]⟩) := by rfl

theorem c9v88 :
    CandidateElection.vote 20 idxR2a ⟨0, 2, 12, [(62, false), (61, true), (52, false), (51, true), (43, true), (42, false), (41, true), (37, true), (36, true), (35, false), (34, true), (33, true), (32, false), (31, false), (27, true), (26, true), (25, false), (24, true), (23, true), (22, false), (21, false)]⟩ 71
      = .ok (false, ⟨0, 2, 12, [(71, false), (62, false), (61, true), (52, false), (51, true), (43, true), (42, false), (41, true), (37, true), (36, true), (35, false), (34, true), (33, true), (32, false), (31, false), (27, true), (26, true), (25, false), (24, true), (23, true), (22, false), (21, false)]⟩) := by rfl

theorem c9v89 :
    CandidateElection.vote 20 idxR2b ⟨0, 2, 12, [(71, false), (62, false), (61, true), (52, false), (51, true), (43, true), (42, false), (41, true), (37, true), (36, true), (35, false), (34, true), (33, true), (32, false), (31, false), (27, true), (26, true), (25, false), (24, true), (23, true), (22, false), (21, false)]⟩ 53
      = .err (.ElectionDone 12) := by rfl

theorem c9phA :
    CandidateElection.compute_votes 20 (CandidateElection.new ⟨0, 0, 10, []⟩)
        units0 = .ok ⟨0, 0, 10, [(62, false), (61, true), (52, false), (51, true), (42, false), (41, true), (37, false), (36, true), (35, true), (34, false), (33, true), (32, false), (31, true), (27, false), (26, true), (25, true), (24, false), (23, true), (22, false), (21, true)]⟩ := by
  have h0 : CandidateElection.compute_votes 20
      (CandidateElection.new ⟨0, 0, 10, []⟩) units0
      = voteAll 20 units0 ⟨0, 0, 10, []⟩ [21, 22, 23, 24, 25, 26, 27, 31, 32, 33, 34, 35, 36, 37, 41, 42, 51, 52, 61, 62] := by rfl
  rw [h0]
  simp only [voteAll, c9v1, c9v2, c9v3, c9v4, c9v5, c9v6, c9v7, c9v8, c9v9, c9v10, c9v11, c9v12, c9v13, c9v14, c9v15, c9v16, c9v17, c9v18, c9v19, c9v20]

theorem c9phC2r1 :
    CandidateElection.compute_votes 20 (CandidateElection.new ⟨0, 1, 11, []⟩)
        idxR1b = .err (.ElectionDone 11) := by
  have h0 : CandidateElection.compute_votes 20
      (CandidateElection.new ⟨0, 1, 11, []⟩) idxR1b
      = voteAll 20 idxR1b ⟨0, 1, 11, []⟩ [21, 22, 23, 24, 25, 26, 27, 31, 32, 33, 34, 35, 36, 37, 41, 42, 43, 51, 52, 53, 61, 62, 71] := by rfl
  rw [h0]
  simp only [voteAll, c9v24, c9v25, c9v26, c9v27, c9v28, c9v29, c9v30, c9v31, c9v32, c9v33, c9v34, c9v35, c9v36, c9v37, c9v38, c9v39, c9v40, c9v41, c9v42, c9v43]

theorem c9phC2r2 :
    CandidateElection.compute_votes 20 (CandidateElection.new ⟨0, 1, 11, []⟩)
        idxR2a = .err .EliminateCandidate := by
  have h0 : CandidateElection.compute_votes 20
      (CandidateElection.new ⟨0, 1, 11, []⟩) idxR2a
      = voteAll 20 idxR2a ⟨0, 1, 11, []⟩ [21, 22, 23, 24, 25, 26, 27, 31, 32, 33, 34, 35, 36, 37, 41, 42, 43, 51, 52, 61, 62, 71] := by rfl
  rw [h0]
  simp only [voteAll, c9v45, c9v46, c9v47, c9v48, c9v49, c9v50, c9v51, c9v52, c9v53, c9v54, c9v55, c9v56, c9v57, c9v58, c9v59, c9v60, c9v61, c9v62, c9v63, c9v64, c9v65, c9v66]

theorem c9phC3r2 :
    CandidateElection.compute_votes 20 (CandidateElection.new ⟨0, 2, 12, []⟩)
        idxR2a = .ok ⟨0, 2, 12, [(71, false), (62, false), (61, true), (52, false), (51, true), (43, true), (42, false), (41, true), (37, true), (36, true), (35, false), (34, true), (33, true), (32, false), (31, false), (27, true), (26, true), (25, false), (24, true), (23, true), (22, false), (21, false)]⟩ := by
  have h0 : CandidateElection.compute_votes 20
      (CandidateElection.new ⟨0, 2, 12, []⟩) idxR2a
      = voteAll 20 idxR2a ⟨0, 2, 12, []⟩ [21, 22, 23, 24, 25, 26, 27, 31, 32, 33, 34, 35, 36, 37, 41, 42, 43, 51, 52, 61, 62, 71] := by rfl
  rw [h0]
  simp only [voteAll, c9v67, c9v68, c9v69, c9v70, c9v71, c9v72, c9v73, c9v74, c9v75, c9v76, c9v77, c9v78, c9v79, c9v80, c9v81, c9v82, c9v83, c9v84, c9v85, c9v86, c9v87, c9v88]

theorem handleCER_elim_step (n vF : Nat) (units : UnitsIndex)
    (cands : List Nat) (ch : Nat) (cu : ExtenderUnit) (r : RRes)
    (hlast : cands.getLast? = some ch)
    (hget : units.get ch = some cu)
    (hcv : handleCER n vF units
        (CandidateElection.compute_votes vF (CandidateElection.new cu) units)
        cands.dropLast = r) :
    handleCER (n + 1) vF units (.err .EliminateCandidate) cands = r := by
  show handleStep (handleCER n vF units) vF units (.err .EliminateCandidate)
      cands = r
  unfold handleStep
  rw [hlast]
  dsimp only
  rw [hget]
  dsimp only
  exact hcv

theorem c9fr :
    RoundElection.for_round 20 0 units0
      = .pending ⟨[12, 11], ⟨0, 0, 10, [(62, false), (61, true), (52, false), (51, true), (42, false), (41, true), (37, false), (36, true), (35, true), (34, false), (33, true), (32, false), (31, true), (27, false), (26, true), (25, true), (24, false), (23, true), (22, false), (21, true)]⟩⟩ := by
  unfold RoundElection.for_round
  rw [if_neg (by decide)]
  rw [show (List.insertionSort (· ≤ ·) (units0.in_round 0)).reverse
      = [12, 11, 10] from by rfl]
  rw [show ([12, 11, 10] : List Nat).getLast? = some 10 from rfl]
  dsimp only
  rw [show units0.get 10 = some ⟨0, 0, 10, []⟩ from by rfl]
  dsimp only
  rw [show ([12, 11, 10] : List Nat).dropLast = [12, 11] from rfl]
  unfold RoundElection.compute_votes
  dsimp only
  rw [c9phA]
  rfl

theorem c9avB :
    RoundElection.add_voter 20 ⟨[12, 11], ⟨0, 0, 10, [(62, false), (61, true), (52, false), (51, true), (42, false), (41, true), (37, false), (36, true), (35, true), (34, false), (33, true), (32, false), (31, true), (27, false), (26, true), (25, true), (24, false), (23, true), (22, false), (21, true)]⟩⟩ 71 idxB
      = .pending ⟨[12, 11], ⟨0, 0, 10, [(71, false), (62, false), (61, true), (52, false), (51, true), (42, false), (41, true), (37, false), (36, true), (35, true), (34, false), (33, true), (32, false), (31, true), (27, false), (26, true), (25, true), (24, false), (23, true), (22, false), (21, true)]⟩⟩ := by
  have h1 : CandidateElection.add_voter 20 ⟨0, 0, 10, [(62, false), (61, true), (52, false), (51, true), (42, false), (41, true), (37, false), (36, true), (35, true), (34, false), (33, true), (32, false), (31, true), (27, false), (26, true), (25, true), (24, false), (23, true), (22, false), (21, true)]⟩ 71 idxB
      = .ok ⟨0, 0, 10, [(71, false), (62, false), (61, true), (52, false), (51, true), (42, false), (41, true), (37, false), (36, true), (35, true), (34, false), (33, true), (32, false), (31, true), (27, false), (26, true), (25, true), (24, false), (23, true), (22, false), (21, true)]⟩ := by
    simp only [CandidateElection.add_voter, c9v21]
  unfold RoundElection.add_voter
  dsimp only
  rw [h1]
  rfl

theorem c9av53r1 :
    RoundElection.add_voter 20 ⟨[12, 11], ⟨0, 0, 10, [(71, false), (62, false), (61, true), (52, false), (51, true), (42, false), (41, true), (37, false), (36, true), (35, true), (34, false), (33, true), (32, false), (31, true), (27, false), (26, true), (25, true), (24, false), (23, true), (22, false), (21, true)]⟩⟩ 53 idxR1a
      = .pending ⟨[12, 11], ⟨0, 0, 10, [(53, true), (71, false), (62, false), (61, true), (52, false), (51, true), (42, false), (41, true), (37, false), (36, true), (35, true), (34, false), (33, true), (32, false), (31, true), (27, false), (26, true), (25, true), (24, false), (23, true), (22, false), (21, true)]⟩⟩ := by
  have h1 : CandidateElection.add_voter 20 ⟨0, 0, 10, [(71, false), (62, false), (61, true), (52, false), (51, true), (42, false), (41, true), (37, false), (36, true), (35, true), (34, false), (33, true), (32, false), (31, true), (27, false), (26, true), (25, true), (24, false), (23, true), (22, false), (21, true)]⟩ 53 idxR1a
      = .ok ⟨0, 0, 10, [(53, true), (71, false), (62, false), (61, true), (52, false), (51, true), (42, false), (41, true), (37, false), (36, true), (35, true), (34, false), (33, true), (32, false), (31, true), (27, false), (26, true), (25, true), (24, false), (23, true), (22, false), (21, true)]⟩ := by
    simp only [CandidateElection.add_voter, c9v22]
  unfold RoundElection.add_voter
  dsimp only
  rw [h1]
  rfl

theorem c9av43r1 :
    RoundElection.add_voter 20 ⟨[12, 11], ⟨0, 0, 10, [(53, true), (71, false), (62, false), (61, true), (52, false), (51, true), (42, false), (41, true), (37, false), (36, true), (35, true), (34, false), (33, true), (32, false), (31, true), (27, false), (26, true), (25, true), (24, false), (23, true), (22, false), (21, true)]⟩⟩ 43 idxR1b
      = .elected 11 := by
  have h1 : CandidateElection.add_voter 20 ⟨0, 0, 10, [(53, true), (71, false), (62, false), (61, true), (52, false), (51, true), (42, false), (41, true), (37, false), (36, true), (35, true), (34, false), (33, true), (32, false), (31, true), (27, false), (26, true), (25, true), (24, false), (23, true), (22, false), (21, true)]⟩ 43 idxR1b
      = .err .EliminateCandidate := by
    simp only [CandidateElection.add_voter, c9v23]
  unfold RoundElection.add_voter
  dsimp only
  rw [h1]
  show handleCER (2 + 1) 20 idxR1b (.err .EliminateCandidate) [12, 11]
      = .elected 11
  refine handleCER_elim_step 2 20 idxR1b [12, 11] 11 ⟨0, 1, 11, []⟩ _
    (by rfl) (by rfl) ?_
  rw [c9phC2r1]
  rfl

theorem c9av43r2 :
    RoundElection.add_voter 20 ⟨[12, 11], ⟨0, 0, 10, [(71, false), (62, false), (61, true), (52, false), (51, true), (42, false), (41, true), (37, false), (36, true), (35, true), (34, false), (33, true), (32, false), (31, true), (27, false), (26, true), (25, true), (24, false), (23, true), (22, false), (21, true)]⟩⟩ 43 idxR2a
      = .pending ⟨[], ⟨0, 2, 12, [(71, false), (62, false), (61, true), (52, false), (51, true), (43, true), (42, false), (41, true), (37, true), (36, true), (35, false), (34, true), (33, true), (32, false), (31, false), (27, true), (26, true), (25, false), (24, true), (23, true), (22, false), (21, false)]⟩⟩ := by
  have h1 : CandidateElection.add_voter 20 ⟨0, 0, 10, [(71, false), (62, false), (61, true), (52, false), (51, true), (42, false), (41, true), (37, false), (36, true), (35, true), (34, false), (33, true), (32, false), (31, true), (27, false), (26, true), (25, true), (24, false), (23, true), (22, false), (21, true)]⟩ 43 idxR2a
      = .err .EliminateCandidate := by
    simp only [CandidateElection.add_voter, c9v44]
  unfold RoundElection.add_voter
  dsimp only
  rw [h1]
  show handleCER (2 + 1) 20 idxR2a (.err .EliminateCandidate) [12, 11]
      = .pending ⟨[], ⟨0, 2, 12, [(71, false), (62, false), (61, true), (52, false), (51, true), (43, true), (42, false), (41, true), (37, true), (36, true), (35, false), (34, true), (33, true), (32, false), (31, false), (27, true), (26, true), (25, false), (24, true), (23, true), (22, false), (21, false)]⟩⟩
  refine handleCER_elim_step 2 20 idxR2a [12, 11] 11 ⟨0, 1, 11, []⟩ _
    (by rfl) (by rfl) ?_
  rw [c9phC2r2]
  rw [show ([12, 11] : List Nat).dropLast = [12] from rfl]
  refine handleCER_elim_step 1 20 idxR2a [12] 12 ⟨0, 2, 12, []⟩ _
    (by rfl) (by rfl) ?_
  rw [c9phC3r2]
  rfl

theorem c9av53r2 :
    RoundElection.add_voter 20 ⟨[], ⟨0, 2, 12, [(71, false), (62, false), (61, true), (52, false), (51, true), (43, true), (42, false), (41, true), (37, true), (36, true), (35, false), (34, true), (33, true), (32, false), (31, false), (27, true), (26, true), (25, false), (24, true), (23, true), (22, false), (21, false)]⟩⟩ 53 idxR2b
      = .elected 12 := by
  have h1 : CandidateElection.add_voter 20 ⟨0, 2, 12, [(71, false), (62, false), (61, true), (52, false), (51, true), (43, true), (42, false), (41, true), (37, true), (36, true), (35, false), (34, true), (33, true), (32, false), (31, false), (27, true), (26, true), (25, false), (24, true), (23, true), (22, false), (21, false)]⟩ 53 idxR2b
      = .err (.ElectionDone 12) := by
    simp only [CandidateElection.add_voter, c9v89]
  unfold RoundElection.add_voter
  dsimp only
  rw [h1]
  rfl

/-- Counterexample for C9 as stated: over the same initial index, two
causally complete `add_voter` orders covering the same three voters both
reach an elected head, but run 1 elects hash 11 while run 2 elects
hash 12. -/
theorem spec_c9_cex :
    runSeq 20 (RoundElection.for_round 20 0 units0)
        [(71, idxB), (53, idxR1a), (43, idxR1b)] = .elected 11 ∧
    runSeq 20 (RoundElection.for_round 20 0 units0)
        [(71, idxB), (43, idxR2a), (53, idxR2b)] = .elected 12 ∧
    ([71, 53, 43] : List Nat).Perm [71, 43, 53] ∧
    (∀ p ∈ NodeMap.values unitV2.parents, (units0.get p).isSome = true) ∧
    (∀ p ∈ NodeMap.values unitV1.parents, (units0.get p).isSome = true) ∧
    (∀ p ∈ NodeMap.values unitW.parents, (units0.get p).isSome = true) := by
  refine ⟨?_, ?_, by decide, by decide, by decide, by decide⟩
  · rw [c9fr]
    simp only [runSeq, List.foldl, runStep]
    rw [c9avB]
    dsimp only
    rw [c9av53r1]
    dsimp only
    rw [c9av43r1]
  · rw [c9fr]
    simp only [runSeq, List.foldl, runStep]
    rw [c9avB]
    dsimp only
    rw [c9av43r2]
    dsimp only
    rw [c9av53r2]
